import Mathlib

/-!
Verification development for the TrueMile broker-email pipeline
(`src/backend/src/services/ai/broker-outreach.service.ts`).

The file shallowly embeds the three services contained in that source file:

* `LoadExtractorService` — load-signal extraction from normalized text
  (`stripHtml`, `extractLoadNumber`, `extractRate`, `extractLane`,
  `extractMiles`, `extractEquipment`, `extractWeight`, `extractDates`,
  `extractContact`, `extractLoad`, `isLoadOffer`, `calculatePriorityScore`,
  `updateBrokerStats`, `calculateRelationshipScore`);
* `BrokerIdentifierService` — broker identification
  (`levenshteinDistance`, `calculateSimilarity`, `findMatchingBroker`,
  `identifyBroker`, `analyzeContent`, `isLikelyBrokerEmail`).

Strings are embedded as `List Char`; JavaScript numbers as `ℚ` (the source
arithmetic stays well inside the exactly-representable double range for all
quantities of interest); timestamps as `ℕ` milliseconds.  The JavaScript
regular expressions of the source are embedded as data (`RE` values mirroring
each pattern literal) interpreted by a backtracking matcher `mtch` that
follows ECMAScript semantics: leftmost match, left-first alternation, greedy
quantifiers with backtracking, numbered capture groups, `i`/`m` flags, word
boundaries and negative lookahead.  The matcher carries fuel; exhaustion is
reported as `none` at an outer `Option` layer, so that a theorem asserting a
concrete result can only be proved when the matcher actually decided it.
-/

namespace TrueMile

/-- Strings of the embedded program, as lists of characters. -/
abbrev Str := List Char

/-- Whitespace for the ECMAScript `\s` class and `String.prototype.trim`
(ASCII part plus NBSP and BOM; the embedded inputs are ASCII). -/
def jsIsSpace (c : Char) : Bool :=
  c = ' ' || c = '\t' || c = '\n' || c = '\r' || c = '\x0b' || c = '\x0c' ||
  c = ' ' || c = '﻿'

/-- ECMAScript `\w`: ASCII letters, digits and underscore. -/
def jsIsWord (c : Char) : Bool :=
  ('a' ≤ c && c ≤ 'z') || ('A' ≤ c && c ≤ 'Z') || ('0' ≤ c && c ≤ '9') || c = '_'

/-- ECMAScript `\d`. -/
def jsIsDigit (c : Char) : Bool :=
  '0' ≤ c && c ≤ '9'

/-- Line terminators for `.`, and for `^`/`$` under the `m` flag
(the embedded inputs only ever contain `\n`). -/
def isLineTerm (c : Char) : Bool :=
  c = '\n' || c = '\r' || c = ' ' || c = ' '

/-- ASCII case flip, used for case-insensitive class membership. -/
def flipCase (c : Char) : Char :=
  if c.isUpper then c.toLower else if c.isLower then c.toUpper else c

/-- Case-insensitive (flag `i`) comparison of a pattern character with an
input character; ASCII simple case folding. -/
def charMatch (ci : Bool) (pat inp : Char) : Bool :=
  if ci then pat.toLower = inp.toLower else pat = inp

/-- One atom of a character class. -/
inductive CItem where
  | ch (c : Char)
  | range (lo hi : Char)
  | digit
  | space
  | word
deriving DecidableEq, Repr

/-- Membership of a character in one class atom. -/
def citemHas (it : CItem) (c : Char) : Bool :=
  match it with
  | .ch c' => c = c'
  | .range lo hi => lo ≤ c && c ≤ hi
  | .digit => jsIsDigit c
  | .space => jsIsSpace c
  | .word => jsIsWord c

/-- Membership of a character in a (non-negated) class body; under the `i`
flag the case-flipped character is also tried, matching ECMAScript
canonicalisation on ASCII. -/
def clsHas (ci : Bool) (items : List CItem) (c : Char) : Bool :=
  items.any (citemHas · c) || (ci && items.any (citemHas · (flipCase c)))

/-- Embedded regular-expression syntax: the constructs appearing in the
pattern literals of the source file. -/
inductive RE where
  | ch (c : Char)
  | dot
  | cls (neg : Bool) (items : List CItem)
  | seq (a b : RE)
  | alt (a b : RE)
  | rep (lo : Nat) (hi : Option Nat) (r : RE)
  | grp (idx : Nat) (r : RE)
  | bol
  | eol
  | wordB
  | nla (r : RE)
deriving Repr

/-- Sequencing of a list of regexes. -/
def RE.cat : List RE → RE
  | [] => .rep 0 (some 0) (.ch ' ')
  | [r] => r
  | r :: rs => .seq r (RE.cat rs)

/-- Literal string as a regex. -/
def RE.lit (s : Str) : RE :=
  RE.cat (s.map RE.ch)

/-- Greedy `*`. -/
def RE.star (r : RE) : RE := .rep 0 none r

/-- Greedy `+`. -/
def RE.plus (r : RE) : RE := .rep 1 none r

/-- Greedy `?`. -/
def RE.opt (r : RE) : RE := .rep 0 (some 1) r

/-- Alternation of a nonempty list, associating to the right as the source
pattern literals do. -/
def RE.alts : List RE → RE
  | [] => .rep 0 (some 0) (.ch ' ')
  | [r] => r
  | r :: rs => .alt r (RE.alts rs)

/-- Matcher flags: `i` (case-insensitive) and `m` (multiline anchors). -/
structure Flags where
  i : Bool := false
  m : Bool := false
deriving DecidableEq, Repr

/-- Matcher state: current input position and the capture list
(`(group, start, stop)`, most recent first, so that a later iteration of a
group shadows an earlier one exactly as ECMAScript overwrites captures). -/
structure MS where
  pos : Nat
  caps : List (Nat × Nat × Nat)
deriving DecidableEq, Repr

/-- Result layering of the matcher: outer `none` means the fuel ran out
(never the case for the concrete evaluations below), `some none` means no
match on this path, `some (some st)` is a successful final state. -/
def MRes := Option (Option MS)

/-- Backtracking combination: keep a success, otherwise try the
alternative; fuel exhaustion aborts the whole search. -/
def orElseM (a : Option (Option MS)) (b : Unit → Option (Option MS)) :
    Option (Option MS) :=
  match a with
  | none => none
  | some (some st) => some (some st)
  | some none => b ()

/-- Word-character test at an input position, `false` outside the string
(for `\b`). -/
def wordAt (s : Str) (i : Nat) : Bool :=
  match s.get? i with
  | some c => jsIsWord c
  | none => false

/-- The backtracking matcher, in continuation-passing style.  It follows
ECMAScript matching order: alternation tries the left branch first,
quantifiers are greedy and give back on failure, a quantifier with
satisfied minimum stops looping on an empty-width iteration, captures are
recorded when their group closes and are discarded on backtracking. -/
def mtch : Nat → Flags → Str → RE → MS →
    (MS → Option (Option MS)) → Option (Option MS)
  | 0, _, _, _, _, _ => none
  | fuel + 1, fl, s, r, st, k =>
    match r with
    | .ch c =>
      match s.get? st.pos with
      | some c' => if charMatch fl.i c c' then k ⟨st.pos + 1, st.caps⟩ else some none
      | none => some none
    | .dot =>
      match s.get? st.pos with
      | some c' => if isLineTerm c' then some none else k ⟨st.pos + 1, st.caps⟩
      | none => some none
    | .cls neg items =>
      match s.get? st.pos with
      | some c' =>
        if xor neg (clsHas fl.i items c') then k ⟨st.pos + 1, st.caps⟩ else some none
      | none => some none
    | .seq a b => mtch fuel fl s a st (fun st' => mtch fuel fl s b st' k)
    | .alt a b => orElseM (mtch fuel fl s a st k) (fun _ => mtch fuel fl s b st k)
    | .rep lo hi body =>
      match lo with
      | l + 1 =>
        mtch fuel fl s body st
          (fun st' => mtch fuel fl s (.rep l (hi.map (· - 1)) body) st' k)
      | 0 =>
        match hi with
        | some 0 => k st
        | _ =>
          orElseM
            (mtch fuel fl s body st (fun st' =>
              if st'.pos = st.pos then some none
              else mtch fuel fl s (.rep 0 (hi.map (· - 1)) body) st' k))
            (fun _ => k st)
    | .grp idx body =>
      mtch fuel fl s body st
        (fun st' => k ⟨st'.pos, (idx, st.pos, st'.pos) :: st'.caps⟩)
    | .bol =>
      if st.pos = 0 ||
          (fl.m && (match s.get? (st.pos - 1) with
                    | some c => isLineTerm c
                    | none => false)) then k st else some none
    | .eol =>
      if st.pos = s.length ||
          (fl.m && (match s.get? st.pos with
                    | some c => isLineTerm c
                    | none => false)) then k st else some none
    | .wordB =>
      let before := if st.pos = 0 then false else wordAt s (st.pos - 1)
      let after := wordAt s st.pos
      if before ≠ after then k st else some none
    | .nla body =>
      match mtch fuel fl s body st (fun st' => some (some st')) with
      | none => none
      | some (some _) => some none
      | some none => k st

/-- Fuel for one anchored match attempt; the matcher only consumes fuel on
actual recursion depth, so a generous bound is free. -/
def reFuel (s : Str) : Nat :=
  32 * s.length + 4096

/-- One anchored match attempt at position `i`. -/
def tryAt (fl : Flags) (s : Str) (r : RE) (i : Nat) : Option (Option MS) :=
  mtch (reFuel s) fl s r ⟨i, []⟩ (fun st => some (some st))

/-- Leftmost search from position `i` (ECMAScript `RegExp.prototype.exec`):
try each start position in order, first success wins. -/
def searchFrom : Nat → Flags → Str → RE → Nat → Option (Option (Nat × MS))
  | 0, _, _, _, _ => none
  | f + 1, fl, s, r, i =>
    match tryAt fl s r i with
    | none => none
    | some (some st) => some (some (i, st))
    | some none => if i < s.length then searchFrom f fl s r (i + 1) else some none

/-- A match: start position plus final matcher state. -/
abbrev JsMatch := Nat × MS

/-- ECMAScript `str.match(re)` for a non-global regex: the first match. -/
def jsMatchFirst (fl : Flags) (r : RE) (s : Str) : Option (Option JsMatch) :=
  searchFrom (s.length + 1) fl s r 0

/-- Substring `s[a..b)`. -/
def slice (s : Str) (a b : Nat) : Str :=
  (s.drop a).take (b - a)

/-- Captured group `n` of a match (`none` when the group did not
participate, as ECMAScript leaves it `undefined`). -/
def groupStr (s : Str) (m : JsMatch) (n : Nat) : Option Str :=
  (m.2.caps.find? (fun t => t.1 = n)).map (fun t => slice s t.2.1 t.2.2)

/-- The whole text of a match (`match[0]`). -/
def wholeStr (s : Str) (m : JsMatch) : Str :=
  slice s m.1 m.2.pos

/-- ECMAScript `re.test(s)`. -/
def jsTest (fl : Flags) (r : RE) (s : Str) : Option Bool :=
  (jsMatchFirst fl r s).map Option.isSome

/-- All matches of a global regex (`String.prototype.matchAll`), advancing
past each match and stepping one character forward on an empty match. -/
def matchAllAux : Nat → Flags → Str → RE → Nat → List JsMatch →
    Option (List JsMatch)
  | 0, _, _, _, _, _ => none
  | f + 1, fl, s, r, i, acc =>
    match searchFrom (s.length + 1) fl s r i with
    | none => none
    | some none => some acc.reverse
    | some (some m) =>
      let nexti := if m.2.pos = m.1 then m.1 + 1 else m.2.pos
      matchAllAux f fl s r nexti (m :: acc)

/-- ECMAScript `matchAll` (the source only applies it to global regexes). -/
def jsMatchAll (fl : Flags) (r : RE) (s : Str) : Option (List JsMatch) :=
  matchAllAux (s.length + 2) fl s r 0 []

/-- Splice a list of disjoint matches, replacing each by `repl`. -/
def spliceAll (s : Str) (repl : Str) : List JsMatch → Nat → Str
  | [], i => s.drop i
  | m :: ms, i => slice s i m.1 ++ repl ++ spliceAll s repl ms m.2.pos

/-- ECMAScript `s.replace(re, repl)` for a global regex with a plain
replacement string. -/
def jsReplaceAll (fl : Flags) (r : RE) (repl : Str) (s : Str) : Option Str :=
  (jsMatchAll fl r s).map (fun ms => spliceAll s repl ms 0)

/-- ECMAScript `s.replace(re, repl)` for a non-global regex: first match
only. -/
def jsReplaceFirst (fl : Flags) (r : RE) (repl : Str) (s : Str) : Option Str :=
  match jsMatchFirst fl r s with
  | none => none
  | some none => some s
  | some (some m) => some (slice s 0 m.1 ++ repl ++ s.drop m.2.pos)

/-! JavaScript string and number helpers used by the source. -/

/-- ECMAScript `toLowerCase` (ASCII; all embedded inputs are ASCII). -/
def jsLower (s : Str) : Str := s.map Char.toLower

/-- ECMAScript `toUpperCase` (ASCII). -/
def jsUpper (s : Str) : Str := s.map Char.toUpper

/-- ECMAScript `String.prototype.includes`. -/
def jsIncludes (s sub : Str) : Bool :=
  (List.range (s.length + 1)).any (fun i => sub.isPrefixOf (s.drop i))

/-- ECMAScript `String.prototype.endsWith`. -/
def jsEndsWith (s suf : Str) : Bool := suf.isSuffixOf s

/-- ECMAScript `String.prototype.startsWith`. -/
def jsStartsWith (s pre : Str) : Bool := pre.isPrefixOf s

/-- ECMAScript `String.prototype.trim`. -/
def jsTrim (s : Str) : Str :=
  ((s.dropWhile jsIsSpace).reverse.dropWhile jsIsSpace).reverse

/-- ECMAScript `String.prototype.split` with a single-character separator
(the source only splits on `'.'` and `' '`). -/
def jsSplitCh (sep : Char) (s : Str) : List Str :=
  s.splitOn sep

/-- Numeric value of a digit string. -/
def digitsVal (s : Str) : Nat :=
  s.foldl (fun acc c => 10 * acc + (c.toNat - '0'.toNat)) 0

/-- ECMAScript `parseInt(str)` restricted to the shapes the source feeds it
(leading whitespace, then decimal digits): `none` is `NaN`. -/
def jsParseInt (s : Str) : Option ℚ :=
  let s1 := s.dropWhile jsIsSpace
  let ds := s1.takeWhile (fun c => jsIsDigit c)
  if ds = [] then none else some (digitsVal ds : ℚ)

/-- ECMAScript `parseFloat(str)` restricted to the shapes the source feeds
it (digits, optionally a dot and more digits): `none` is `NaN`. -/
def jsParseFloat (s : Str) : Option ℚ :=
  let s1 := s.dropWhile jsIsSpace
  let intPart := s1.takeWhile (fun c => jsIsDigit c)
  let rest := s1.drop intPart.length
  let fracPart :=
    match rest with
    | '.' :: r => r.takeWhile (fun c => jsIsDigit c)
    | _ => []
  if intPart = [] && fracPart = [] then none
  else some ((digitsVal intPart : ℚ) +
    (digitsVal fracPart : ℚ) / ((10 : ℚ) ^ fracPart.length))

/-- ECMAScript `Math.round`: round half toward positive infinity. -/
def jsRound (q : ℚ) : ℤ := ⌊q + 1 / 2⌋

/-- The `Math.round(x * 100) / 100` idiom of the source. -/
def round2 (q : ℚ) : ℚ := (jsRound (q * 100) : ℚ) / 100

/-- Truthiness of a nullable JavaScript number: `null`, `undefined` and `0`
are falsy. -/
def truthyQ : Option ℚ → Bool
  | none => false
  | some q => q ≠ 0

/-- Truthiness of a nullable JavaScript string: `null`, `undefined` and the
empty string are falsy. -/
def truthyS : Option Str → Bool
  | none => false
  | some s => s ≠ []

/-- JavaScript `a || b` on nullable numbers. -/
def jsOrQ (a b : Option ℚ) : Option ℚ :=
  if truthyQ a then a else b

/-- String literal helper. -/
def S (s : String) : Str := s.toList

/-- Regex literal helper. -/
def L (s : String) : RE := RE.lit s.toList

/-! Shorthand for the regex atoms appearing in the source patterns. -/

/-- Class atom `A-Z`. -/
def rAZ : CItem := CItem.range 'A' 'Z'

/-- Class atom `a-z`. -/
def raz : CItem := CItem.range 'a' 'z'

/-- Class atom `0-9`. -/
def r09 : CItem := CItem.range '0' '9'

/-- Pattern `\d`. -/
def pD : RE := RE.cls false [CItem.digit]

/-- Pattern `\s`. -/
def pS : RE := RE.cls false [CItem.space]

/-- Pattern `\w`. -/
def pW : RE := RE.cls false [CItem.word]

/-- Pattern `\s*`. -/
def sStar : RE := RE.star pS

/-- Pattern `\s+`. -/
def sPlus : RE := RE.plus pS

/-- Pattern `[\s:]+`. -/
def spColonPlus : RE := RE.plus (RE.cls false [CItem.space, CItem.ch ':'])

/-!
Embedding of `LoadExtractorService`
(`src/backend/src/services/ai/broker-outreach.service.ts`, second document
in the file, lines 331–1213).
-/

/-- The `US_STATES` constant (the same list occurs once per service
document in the source). -/
def US_STATES : List Str :=
  [S ("AL"), S ("AK"), S ("AZ"), S ("AR"), S ("CA"), S ("CO"), S ("CT"), S ("DE"), S ("FL"), S ("GA"),
   S ("HI"), S ("ID"), S ("IL"), S ("IN"), S ("IA"), S ("KS"), S ("KY"), S ("LA"), S ("ME"), S ("MD"),
   S ("MA"), S ("MI"), S ("MN"), S ("MS"), S ("MO"), S ("MT"), S ("NE"), S ("NV"), S ("NH"), S ("NJ"),
   S ("NM"), S ("NY"), S ("NC"), S ("ND"), S ("OH"), S ("OK"), S ("OR"), S ("PA"), S ("RI"), S ("SC"),
   S ("SD"), S ("TN"), S ("TX"), S ("UT"), S ("VT"), S ("VA"), S ("WA"), S ("WV"), S ("WI"), S ("WY")]

/-- The `CompanyPreferences` configuration record. -/
structure CompanyPreferences where
  minRatePerMile : ℚ
  preferredStates : List Str
  preferredEquipment : List Str
  maxDistance : ℚ
  homeBase : Str
deriving DecidableEq

/-- The `LoadData` value produced by `extractLoad`.  Dates are epoch
milliseconds (a fixed local-time offset of the JavaScript `Date`
constructor is elided; it shifts every date by the same constant). -/
structure LoadData where
  loadNumber : Option Str := none
  originCity : Option Str := none
  originState : Option Str := none
  destCity : Option Str := none
  destState : Option Str := none
  rate : Option ℚ := none
  miles : Option ℚ := none
  ratePerMile : Option ℚ := none
  equipment : Option Str := none
  weight : Option ℚ := none
  pickupDate : Option ℤ := none
  deliveryDate : Option ℤ := none
  contactName : Option Str := none
  contactPhone : Option Str := none
  contactEmail : Option Str := none
  confidence : ℚ := 0
deriving DecidableEq

/-- Group 1 of a match; the source reads `match[1]` only from patterns in
which group 1 always participates. -/
def g1 (content : Str) (m : JsMatch) : Str :=
  (groupStr content m 1).getD []

/-- The five patterns of `extractLoadNumber`, in source order, with their
flags. -/
def loadNumberPatterns : List (Flags × RE) :=
  [({i := true}, RE.cat [L ("load"), sStar, RE.opt (RE.ch '#'), sStar,
      RE.opt (RE.cls false [CItem.ch ':', CItem.ch '=']), sStar,
      RE.grp 1 (RE.plus (RE.cls false [rAZ, r09, CItem.ch '-']))]),
   ({i := true}, RE.cat [L ("ref"), RE.opt (L ("erence")), spColonPlus,
      RE.opt (RE.ch '#'), sStar,
      RE.grp 1 (RE.plus (RE.cls false [rAZ, r09, CItem.ch '-']))]),
   ({i := true}, RE.cat [L ("order"), sStar, RE.opt (RE.ch '#'), sStar,
      RE.opt (RE.cls false [CItem.ch ':', CItem.ch '=']), sStar,
      RE.grp 1 (RE.plus (RE.cls false [rAZ, r09, CItem.ch '-']))]),
   ({}, RE.cat [RE.ch '#', RE.grp 1 (RE.rep 5 none pD)]),
   ({}, RE.cat [RE.wordB,
      RE.grp 1 (RE.cat [RE.rep 2 (some 4) (RE.cls false [rAZ]), RE.rep 4 none pD]),
      RE.wordB])]

/-- `extractLoadNumber`: first pattern whose capture passes the length
filter wins; a match failing the filter falls through to the next
pattern. -/
def extractLoadNumber (content : Str) : Option (Option Str) :=
  let rec go : List (Flags × RE) → Option (Option Str)
    | [] => some none
    | (fl, p) :: rest => do
      let m? ← jsMatchFirst fl p content
      match m? with
      | some m =>
        let loadNum := jsTrim (g1 content m)
        if 4 ≤ loadNum.length ∧ loadNum.length ≤ 20 then some (some loadNum)
        else go rest
      | none => go rest
  go loadNumberPatterns

/-- The six patterns of `extractRate`, in source order. -/
def ratePatterns : List (Flags × RE) :=
  [({i := true}, RE.cat [L ("rate"), spColonPlus, RE.ch '$', sStar,
      RE.grp 1 (RE.cat [RE.plus (RE.cls false [CItem.digit, CItem.ch ',']),
        RE.opt (RE.ch '.'), RE.star pD])]),
   ({i := true}, RE.cat [L ("target"), sStar, L ("rate"), spColonPlus,
      RE.opt (RE.ch '$'), sStar,
      RE.grp 1 (RE.cat [RE.plus (RE.cls false [CItem.digit, CItem.ch ',']),
        RE.opt (RE.ch '.'), RE.star pD])]),
   ({i := true}, RE.cat [L ("pay"), spColonPlus, RE.opt (RE.ch '$'), sStar,
      RE.grp 1 (RE.cat [RE.plus (RE.cls false [CItem.digit, CItem.ch ',']),
        RE.opt (RE.ch '.'), RE.star pD])]),
   ({i := true}, RE.cat [L ("all"), sStar, L ("in"), spColonPlus,
      RE.opt (RE.ch '$'), sStar,
      RE.grp 1 (RE.cat [RE.plus (RE.cls false [CItem.digit, CItem.ch ',']),
        RE.opt (RE.ch '.'), RE.star pD])]),
   ({m := true}, RE.cat [RE.bol, RE.ch '$', sStar,
      RE.grp 1 (RE.cat [RE.plus (RE.cls false [CItem.digit, CItem.ch ',']),
        RE.opt (RE.ch '.'), RE.star pD]), RE.eol]),
   ({}, RE.cat [RE.ch '$', sStar,
      RE.grp 1 (RE.cat [RE.plus (RE.cls false [CItem.digit, CItem.ch ',']),
        RE.opt (RE.ch '.'), RE.star pD])])]

/-- `extractRate`: the captured amount has its commas removed
(`replace(/,/g, '')`), is parsed with `parseFloat`, and is accepted on the
range `$300–$15000`; otherwise the next pattern is tried. -/
def extractRate (content : Str) : Option (Option ℚ) :=
  let rec go : List (Flags × RE) → Option (Option ℚ)
    | [] => some none
    | (fl, p) :: rest => do
      let m? ← jsMatchFirst fl p content
      match m? with
      | some m =>
        let rateStr := (g1 content m).filter (fun c => c ≠ ',')
        match jsParseFloat rateStr with
        | some rate => if 300 ≤ rate ∧ rate ≤ 15000 then some (some rate) else go rest
        | none => go rest
      | none => go rest
  go ratePatterns

/-- `normalizeCity`: an all-caps city is lowered and re-title-cased. -/
def normalizeCity (city : Str) : Str :=
  if city = [] then []
  else
    let city := jsTrim city
    if city = jsUpper city then
      List.intercalate (S (" "))
        ((jsSplitCh ' ' (jsLower city)).map (fun w =>
          match w with
          | [] => []
          | c :: r => Char.toUpper c :: r))
    else city

/-- A lane extracted by `extractLane`. -/
structure Lane where
  originCity : Str
  originState : Str
  destCity : Str
  destState : Str
deriving DecidableEq

/-- The `to | → | -> | — | – | -->` separator alternation of the lane
patterns, in source order. -/
def laneSep : RE :=
  RE.alts [L ("to"), RE.ch '→', L ("->"), RE.ch '—', RE.ch '–', L ("-->")]

/-- A city token `[A-Z][A-Za-z\s\.]{2,25}` of lane pattern 1. -/
def cityToken : RE :=
  RE.cat [RE.cls false [rAZ],
    RE.rep 2 (some 25) (RE.cls false [rAZ, raz, CItem.space, CItem.ch '.'])]

/-- Lane pattern 1:
`/\b([A-Z][A-Za-z\s\.]{2,25}),?\s*([A-Z]{2})\s*(?:to|→|->|—|–|-->)\s*([A-Z][A-Za-z\s\.]{2,25}),?\s*([A-Z]{2})\b/i`. -/
def lanePattern1 : RE :=
  RE.cat [RE.wordB, RE.grp 1 cityToken, RE.opt (RE.ch ','), sStar,
    RE.grp 2 (RE.rep 2 (some 2) (RE.cls false [rAZ])), sStar, laneSep, sStar,
    RE.grp 3 cityToken, RE.opt (RE.ch ','), sStar,
    RE.grp 4 (RE.rep 2 (some 2) (RE.cls false [rAZ])), RE.wordB]

/-- Lane pattern 2: `/\b([A-Z]{2})\s*(?:to|→|->|—|–|-->)\s*([A-Z]{2})\b/`
(no flags). -/
def lanePattern2 : RE :=
  RE.cat [RE.wordB, RE.grp 1 (RE.rep 2 (some 2) (RE.cls false [rAZ])), sStar,
    laneSep, sStar, RE.grp 2 (RE.rep 2 (some 2) (RE.cls false [rAZ])), RE.wordB]

/-- The first notification-boilerplate strip of `extractLane`:
`/SLEEK FLEET NOTIFICATION[^:]+:/gi`. -/
def laneStrip1 : RE :=
  RE.cat [L ("SLEEK FLEET NOTIFICATION"),
    RE.plus (RE.cls true [CItem.ch ':']), RE.ch ':']

/-- The second strip: `/A new load was added with pickup in/gi`. -/
def laneStrip2 : RE := L ("A new load was added with pickup in")

/-- The third strip: `/\w+ Logistics Services is offering a load from/gi`. -/
def laneStrip3 : RE :=
  RE.cat [RE.plus pW, L (" Logistics Services is offering a load from")]

/-- The body of the pattern-1 branch of `extractLane`: trim the captured
cities, uppercase the captured states, and build a lane only when both
states are valid US state codes. -/
def laneFromMatch1 (cleanContent : Str) (m : JsMatch) : Option Lane :=
  let originCity := jsTrim ((groupStr cleanContent m 1).getD [])
  let originState := jsUpper ((groupStr cleanContent m 2).getD [])
  let destCity := jsTrim ((groupStr cleanContent m 3).getD [])
  let destState := jsUpper ((groupStr cleanContent m 4).getD [])
  if originState ∈ US_STATES ∧ destState ∈ US_STATES then
    some ⟨normalizeCity originCity, originState, normalizeCity destCity, destState⟩
  else none

/-- The body of the pattern-2 branch of `extractLane`: bare state pair
with empty cities, again guarded by state-code validity. -/
def laneFromMatch2 (cleanContent : Str) (m : JsMatch) : Option Lane :=
  let originState := jsUpper ((groupStr cleanContent m 1).getD [])
  let destState := jsUpper ((groupStr cleanContent m 2).getD [])
  if originState ∈ US_STATES ∧ destState ∈ US_STATES then
    some ⟨[], originState, [], destState⟩
  else none

/-- `extractLane`: boilerplate is stripped, then pattern 1 and pattern 2
are tried in turn; a match whose state tokens are not both valid US state
codes falls through. -/
def extractLane (content : Str) : Option (Option Lane) := do
  let c1 ← jsReplaceAll {i := true} laneStrip1 [] content
  let c2 ← jsReplaceAll {i := true} laneStrip2 [] c1
  let cleanContent ← jsReplaceAll {i := true} laneStrip3 [] c2
  let m1? ← jsMatchFirst {i := true} lanePattern1 cleanContent
  let fromM1 : Option Lane :=
    match m1? with
    | some m => laneFromMatch1 cleanContent m
    | none => none
  match fromM1 with
  | some lane => some (some lane)
  | none => do
    let m2? ← jsMatchFirst {} lanePattern2 cleanContent
    match m2? with
    | some m => some (laneFromMatch2 cleanContent m)
    | none => some none

/-- The three patterns of `extractMiles`, in source order. -/
def milesPatterns : List (Flags × RE) :=
  [({i := true}, RE.cat [RE.grp 1 (RE.rep 2 (some 4) pD), sStar, L ("mile"),
      RE.opt (RE.ch 's')]),
   ({i := true}, RE.cat [L ("mile"), RE.opt (RE.ch 's'), spColonPlus,
      RE.grp 1 (RE.rep 2 (some 4) pD)]),
   ({i := true}, RE.cat [L ("distance"), spColonPlus,
      RE.grp 1 (RE.rep 2 (some 4) pD)])]

/-- `extractMiles`: captured digits are parsed with `parseInt` and accepted
on the range `50–3500`. -/
def extractMiles (content : Str) : Option (Option ℚ) :=
  let rec go : List (Flags × RE) → Option (Option ℚ)
    | [] => some none
    | (fl, p) :: rest => do
      let m? ← jsMatchFirst fl p content
      match m? with
      | some m =>
        match jsParseInt (g1 content m) with
        | some miles => if 50 ≤ miles ∧ miles ≤ 3500 then some (some miles) else go rest
        | none => go rest
      | none => go rest
  go milesPatterns

/-- The `equipmentTypes` vocabulary of `extractEquipment`, in source
order. -/
def equipmentTypes : List Str :=
  [S ("dry van"), S ("van"), S ("reefer"), S ("flatbed"), S ("stepdeck"), S ("step deck"),
   S ("lowboy"), S ("conestoga"), S ("hotshot"), S ("box truck"), S ("sprinter"),
   S ("power only"), S ("tanker"), S ("dump"), S ("hopper")]

/-- `extractEquipment`: first vocabulary entry contained in the lowercased
content, title-cased on output. -/
def extractEquipment (content : Str) : Option Str :=
  let lowerContent := jsLower content
  (equipmentTypes.find? (fun t => jsIncludes lowerContent t)).map (fun t =>
    List.intercalate (S (" "))
      ((jsSplitCh ' ' t).map (fun w =>
        match w with
        | [] => []
        | c :: r => Char.toUpper c :: r)))

/-- The weight amount token `\d{1,2}[,\s]?\d{3,5}` of `extractWeight`. -/
def weightAmount : RE :=
  RE.cat [RE.rep 1 (some 2) pD,
    RE.opt (RE.cls false [CItem.ch ',', CItem.space]), RE.rep 3 (some 5) pD]

/-- The two patterns of `extractWeight`, in source order. -/
def weightPatterns : List (Flags × RE) :=
  [({i := true}, RE.cat [RE.grp 1 weightAmount, sStar, L ("lb"),
      RE.opt (RE.ch 's'), RE.opt (RE.ch '.')]),
   ({i := true}, RE.cat [L ("weight"), spColonPlus, RE.grp 1 weightAmount])]

/-- `extractWeight`: the capture has commas and whitespace removed
(`replace(/[,\s]/g, '')`), is parsed with `parseInt`, and is accepted on
the range `100–50000`. -/
def extractWeight (content : Str) : Option (Option ℚ) :=
  let rec go : List (Flags × RE) → Option (Option ℚ)
    | [] => some none
    | (fl, p) :: rest => do
      let m? ← jsMatchFirst fl p content
      match m? with
      | some m =>
        let weightStr := (g1 content m).filter (fun c => ¬ (c = ',' ∨ jsIsSpace c))
        match jsParseInt weightStr with
        | some w => if 100 ≤ w ∧ w ≤ 50000 then some (some w) else go rest
        | none => go rest
      | none => go rest
  go weightPatterns

/-- Days from the civil epoch for year/month(1–12)/day, linear in the day
(the standard proleptic-Gregorian conversion used to model the ECMAScript
`MakeDay` operation). -/
def daysFromCivil (y m d : ℤ) : ℤ :=
  let y := if m ≤ 2 then y - 1 else y
  let era := Int.fdiv y 400
  let yoe := y - era * 400
  let mp := Int.emod (m + 9) 12
  let doy := Int.fdiv (153 * mp + 2) 5 + d - 1
  let doe := yoe * 365 + Int.fdiv yoe 4 - Int.fdiv yoe 100 + doy
  era * 146097 + doe - 719468

/-- Model of `new Date(year, month, day).getTime()` in milliseconds: month
rollover as in ECMAScript `MakeDay`; the constant local-time offset is
elided (it shifts every constructed date equally and the source only
compares such dates).  For the 2-to-4 digit years the source feeds in, the
result never leaves the valid `Date` range, so the `isNaN` rejection
branch of the source is unreachable and the model is total. -/
def jsMakeDate (year month day : ℤ) : ℤ :=
  let ym := year + Int.fdiv month 12
  let mn := Int.emod month 12
  86400000 * daysFromCivil ym (mn + 1) day

/-- Integer value of a parsed field (`parseInt` on an all-digit capture). -/
def jsParseIntZ (s : Str) : Option ℤ :=
  (jsParseInt s).map (fun q => ⌊q⌋)

/-- Date pattern 1: `/(\d{1,2})\/(\d{1,2})\/(\d{2,4})/g`. -/
def datePattern1 : RE :=
  RE.cat [RE.grp 1 (RE.rep 1 (some 2) pD), RE.ch '/',
    RE.grp 2 (RE.rep 1 (some 2) pD), RE.ch '/',
    RE.grp 3 (RE.rep 2 (some 4) pD)]

/-- The `monthNames` list of `extractDates`. -/
def monthNames : List Str :=
  [S ("Jan"), S ("Feb"), S ("Mar"), S ("Apr"), S ("May"), S ("Jun"),
   S ("Jul"), S ("Aug"), S ("Sep"), S ("Oct"), S ("Nov"), S ("Dec")]

/-- Date pattern 2:
`/(Jan|Feb|Mar|Apr|May|Jun|Jul|Aug|Sep|Oct|Nov|Dec)[a-z]*\s+(\d{1,2}),?\s+(\d{4})/gi`. -/
def datePattern2 : RE :=
  RE.cat [RE.grp 1 (RE.alts (monthNames.map RE.lit)),
    RE.star (RE.cls false [raz]), sPlus,
    RE.grp 2 (RE.rep 1 (some 2) pD), RE.opt (RE.ch ','), sPlus,
    RE.grp 3 (RE.rep 4 (some 4) pD)]

/-- Group `n` of a match parsed as an integer (`-1` mirrors a failed
`findIndex`; the parses themselves always succeed on these captures). -/
def matchGroupInt (content : Str) (m : JsMatch) (n : Nat) : ℤ :=
  ((groupStr content m n).bind jsParseIntZ).getD 0

/-- One slash date of `extractDates`: month is `parseInt(g1) - 1`, the
2-digit years are moved to 2000+. -/
def slashDateMs (content : Str) (m : JsMatch) : ℤ :=
  let month := matchGroupInt content m 1 - 1
  let day := matchGroupInt content m 2
  let year0 := matchGroupInt content m 3
  let year := if year0 < 100 then year0 + 2000 else year0
  jsMakeDate year month day

/-- One month-name date of `extractDates`. -/
def monthNameDateMs (content : Str) (m : JsMatch) : ℤ :=
  let g1m := (groupStr content m 1).getD []
  let month : ℤ :=
    match monthNames.findIdx? (fun mn => jsLower mn = jsLower g1m) with
    | some idx => (idx : ℤ)
    | none => -1
  let day := matchGroupInt content m 2
  let year := matchGroupInt content m 3
  jsMakeDate year month day

/-- `extractDates`: all dates from both global patterns, sorted ascending
by time; the earliest is the pickup date, the second earliest the delivery
date. -/
def extractDates (content : Str) : Option (Option ℤ × Option ℤ) := do
  let ms1 ← jsMatchAll {} datePattern1 content
  let ms2 ← jsMatchAll {i := true} datePattern2 content
  let dates := ms1.map (slashDateMs content) ++ ms2.map (monthNameDateMs content)
  let sorted := List.insertionSort (fun a b => a ≤ b) dates
  some (sorted.get? 0, sorted.get? 1)

/-- The contact fields of `extractContact`. -/
structure Contact where
  contactName : Option Str := none
  contactPhone : Option Str := none
  contactEmail : Option Str := none
deriving DecidableEq

/-- The phone pattern
`/(\+?1?\s*\(?(\d{3})\)?[\s.-]?(\d{3})[\s.-]?(\d{4}))/`. -/
def phonePattern : RE :=
  RE.grp 1 (RE.cat [RE.opt (RE.ch '+'), RE.opt (RE.ch '1'), sStar,
    RE.opt (RE.ch '('), RE.grp 2 (RE.rep 3 (some 3) pD), RE.opt (RE.ch ')'),
    RE.opt (RE.cls false [CItem.space, CItem.ch '.', CItem.ch '-']),
    RE.grp 3 (RE.rep 3 (some 3) pD),
    RE.opt (RE.cls false [CItem.space, CItem.ch '.', CItem.ch '-']),
    RE.grp 4 (RE.rep 4 (some 4) pD)])

/-- The email pattern
`/([a-zA-Z0-9._%+-]+@[a-zA-Z0-9.-]+\.[a-zA-Z]{2,})/g`. -/
def emailPattern : RE :=
  RE.grp 1 (RE.cat [
    RE.plus (RE.cls false [raz, rAZ, r09, CItem.ch '.', CItem.ch '_',
      CItem.ch '%', CItem.ch '+', CItem.ch '-']),
    RE.ch '@',
    RE.plus (RE.cls false [raz, rAZ, r09, CItem.ch '.', CItem.ch '-']),
    RE.ch '.', RE.rep 2 none (RE.cls false [raz, rAZ])])

/-- The first sign-off name pattern
`/(?:regards|thanks|sincerely),?\s*\n\s*([A-Z][a-z]+\s+[A-Z][a-z]+)/i`. -/
def namePattern1 : RE :=
  RE.cat [RE.alts [L ("regards"), L ("thanks"), L ("sincerely")],
    RE.opt (RE.ch ','), sStar, RE.ch '\n', sStar,
    RE.grp 1 (RE.cat [RE.cls false [rAZ], RE.plus (RE.cls false [raz]), sPlus,
      RE.cls false [rAZ], RE.plus (RE.cls false [raz])])]

/-- The second name pattern
`/([A-Z][a-z]+\s+[A-Z][a-z]+)\s*\n\s*(?:carrier|operations|dispatch)/i`. -/
def namePattern2 : RE :=
  RE.cat [RE.grp 1 (RE.cat [RE.cls false [rAZ], RE.plus (RE.cls false [raz]),
      sPlus, RE.cls false [rAZ], RE.plus (RE.cls false [raz])]),
    sStar, RE.ch '\n', sStar,
    RE.alts [L ("carrier"), L ("operations"), L ("dispatch")]]

/-- `extractContact`: phone, preferred email (first ops-like address, else
the first address, else the sender), and a sign-off name. -/
def extractContact (content fromEmail : Str) : Option Contact := do
  let phone? ← jsMatchFirst {} phonePattern content
  let contactPhone := phone?.map (fun m => jsTrim (g1 content m))
  let emailMs ← jsMatchAll {} emailPattern content
  let emails := emailMs.map (fun m => jsLower (g1 content m))
  let opsLike := fun (e : Str) =>
    jsIncludes e (S ("ops")) || jsIncludes e (S ("operations")) ||
    jsIncludes e (S ("dispatch"))
  let contactEmail :=
    match emails.find? opsLike with
    | some e => some e
    | none => emails.head?
  let contactEmail := some (contactEmail.getD fromEmail)
  let n1? ← jsMatchFirst {i := true} namePattern1 content
  let contactName ←
    match n1? with
    | some m => some (some (jsTrim (g1 content m)))
    | none => do
      let n2? ← jsMatchFirst {i := true} namePattern2 content
      some (n2?.map (fun m => jsTrim (g1 content m)))
  some { contactName := contactName, contactPhone := contactPhone,
         contactEmail := contactEmail }

/-- The `<script>`-block pattern of `stripHtml`:
`/<script\b[^<]*(?:(?!<\/script>)<[^<]*)*<\/script>/gi`. -/
def scriptRe : RE :=
  RE.cat [RE.ch '<', L ("script"), RE.wordB, RE.star (RE.cls true [CItem.ch '<']),
    RE.star (RE.cat [RE.nla (L ("</script>")), RE.ch '<',
      RE.star (RE.cls true [CItem.ch '<'])]),
    L ("</script>")]

/-- The `<style>`-block pattern of `stripHtml`. -/
def styleRe : RE :=
  RE.cat [RE.ch '<', L ("style"), RE.wordB, RE.star (RE.cls true [CItem.ch '<']),
    RE.star (RE.cat [RE.nla (L ("</style>")), RE.ch '<',
      RE.star (RE.cls true [CItem.ch '<'])]),
    L ("</style>")]

/-- The `<br>` pattern `/<br\s*\/?>/gi`. -/
def brRe : RE := RE.cat [L ("<br"), sStar, RE.opt (RE.ch '/'), RE.ch '>']

/-- The `<td ...>` pattern `/<td[^>]*>/gi`. -/
def tdRe : RE := RE.cat [L ("<td"), RE.star (RE.cls true [CItem.ch '>']), RE.ch '>']

/-- The generic tag pattern `/<[^>]+>/g`. -/
def tagRe : RE := RE.cat [RE.ch '<', RE.plus (RE.cls true [CItem.ch '>']), RE.ch '>']

/-- The replace pipeline of `stripHtml`, in source order:
flags, pattern, replacement for each global `replace` call. -/
def stripHtmlSteps : List (Flags × RE × Str) :=
  [({i := true}, scriptRe, S (" ")),
   ({i := true}, styleRe, S (" ")),
   ({}, L ("&nbsp;"), S (" ")),
   ({}, L ("&amp;"), S ("&")),
   ({}, L ("&lt;"), S ("<")),
   ({}, L ("&gt;"), S (">")),
   ({}, L ("&quot;"), S ("\"")),
   ({}, L ("&#39;"), [Char.ofNat 39]),
   ({}, L ("&rsquo;"), [Char.ofNat 39]),
   ({i := true}, brRe, S ("\n")),
   ({i := true}, L ("</p>"), S ("\n")),
   ({i := true}, L ("</div>"), S ("\n")),
   ({i := true}, L ("</tr>"), S ("\n")),
   ({i := true}, tdRe, S (" | ")),
   ({}, tagRe, S (" ")),
   ({}, sPlus, S (" ")),
   ({}, RE.cat [RE.ch '\n', sPlus], S ("\n")),
   ({}, RE.cat [sPlus, RE.ch '\n'], S ("\n"))]

/-- `stripHtml`: script/style removal, entity decoding, block boundaries
to newlines, tag stripping, and whitespace collapsing, in source order,
then a final `trim`. -/
def stripHtml (html : Str) : Option Str :=
  if html = [] then some []
  else
    (stripHtmlSteps.foldl
      (fun acc step => acc.bind (jsReplaceAll step.1 step.2.1 step.2.2))
      (some html)).map jsTrim

/-- The `stateDistances` table of `calculateDistance`, in source order. -/
def stateDistances : List (Str × ℚ) :=
  [(S ("TX-TX"), 300), (S ("TX-NE"), 900), (S ("TX-AL"), 700), (S ("TX-NM"), 400),
   (S ("TX-OK"), 250), (S ("TX-LA"), 350), (S ("TX-AR"), 400), (S ("TX-CO"), 800),
   (S ("VA-MO"), 880), (S ("VA-NC"), 250), (S ("VA-GA"), 500), (S ("VA-TN"), 450),
   (S ("CA-TX"), 1400), (S ("CA-AZ"), 400), (S ("CA-NV"), 450), (S ("CA-OR"), 600),
   (S ("FL-WY"), 2000), (S ("FL-CO"), 1900), (S ("FL-IL"), 1200), (S ("FL-TX"), 1300),
   (S ("FL-GA"), 350), (S ("FL-AL"), 450), (S ("FL-SC"), 550), (S ("FL-NC"), 650),
   (S ("FL-FL"), 300), (S ("NY-CA"), 2700), (S ("NY-FL"), 1200), (S ("NY-TX"), 1700),
   (S ("IL-TX"), 1000), (S ("IL-FL"), 1200), (S ("IL-CA"), 2000), (S ("IL-NY"), 800),
   (S ("IA-TX"), 900), (S ("IA-IL"), 300), (S ("IA-NE"), 200), (S ("IA-MN"), 250),
   (S ("AZ-FL"), 2000), (S ("AZ-TX"), 900), (S ("AZ-CA"), 400), (S ("AZ-NM"), 350),
   (S ("KS-TX"), 500), (S ("KS-CO"), 400), (S ("KS-NE"), 200), (S ("KS-OK"), 250),
   (S ("MN-GA"), 1200), (S ("MN-IL"), 450), (S ("MN-TX"), 1200), (S ("MN-FL"), 1500),
   (S ("OH-AL"), 650), (S ("OH-GA"), 700), (S ("OH-FL"), 1100), (S ("OH-TX"), 1200),
   (S ("WI-IL"), 200), (S ("WI-TX"), 1100), (S ("WI-FL"), 1400), (S ("WI-CA"), 1900),
   (S ("GA-TX"), 1000), (S ("GA-FL"), 350), (S ("GA-NC"), 350), (S ("GA-SC"), 250),
   (S ("NC-TX"), 1300), (S ("NC-FL"), 650), (S ("NC-VA"), 250), (S ("NC-SC"), 200),
   (S ("PA-FL"), 1100), (S ("PA-TX"), 1500), (S ("PA-OH"), 350), (S ("PA-NY"), 250),
   (S ("MI-TX"), 1200), (S ("MI-FL"), 1300), (S ("MI-IL"), 300), (S ("MI-OH"), 250),
   (S ("TN-TX"), 800), (S ("TN-FL"), 650), (S ("TN-GA"), 250), (S ("TN-NC"), 350),
   (S ("MO-TX"), 700), (S ("MO-IL"), 300), (S ("MO-KS"), 250), (S ("MO-AR"), 250)]

/-- `calculateDistance`: forward key, then reverse key, then `null`; the
city parameters are unused in the source too. -/
def calculateDistance (_originCity originState _destCity destState : Str) :
    Option ℚ :=
  let routeKey := originState ++ S ("-") ++ destState
  let reverseKey := destState ++ S ("-") ++ originState
  let lookup := fun (k : Str) => (stateDistances.find? (fun p => p.1 = k)).map (·.2)
  jsOrQ (lookup routeKey) (jsOrQ (lookup reverseKey) none)

/-- The rate-per-mile derivation inside `extractLoad` (lines 1107–1114):
`Math.round((rate / miles) * 100) / 100`, discarded when the rounded value
exceeds 15. -/
def deriveRatePerMile (rate miles : Option ℚ) : Option ℚ :=
  match rate, miles with
  | some r, some mi =>
    if r = 0 ∨ mi = 0 then none
    else
      let rpm := round2 (r / mi)
      if rpm > 15 then none else some rpm
  | _, _ => none

/-- The tail of `extractLoad`: the `confidence < 25` early-return rejects
the signal, otherwise the assembled `LoadData` is returned. -/
def finishLoad (confidence : ℚ) (d : LoadData) : Option (Option LoadData) :=
  if confidence < 25 then some none else some (some d)

/-- `extractLoad`: normalisation, per-field extraction, the
distance-table fallback for miles, the rate-per-mile derivation, the
confidence sum and the `confidence < 25` rejection.  The unused
`tableData = parseHtmlTable(body)` binding of the source is elided (its
value is never read). -/
def extractLoad (_messageId subject body fromEmail : Str) :
    Option (Option LoadData) := do
  let cleanText ← stripHtml body
  let fullContent := subject ++ ('\n' :: cleanText)
  let loadNumber ← extractLoadNumber fullContent
  let lane ← extractLane fullContent
  let rate ← extractRate fullContent
  let miles0 ← extractMiles fullContent
  let equipment := extractEquipment fullContent
  let weight ← extractWeight fullContent
  let dates ← extractDates fullContent
  let contact ← extractContact fullContent fromEmail
  let miles :=
    match lane with
    | some l =>
      if truthyQ miles0 then miles0
      else
        let calculated := calculateDistance l.originCity l.originState l.destCity l.destState
        if truthyQ calculated then calculated else miles0
    | none => miles0
  let ratePerMile := deriveRatePerMile rate miles
  let confidence : ℚ :=
    (if lane.isSome then 30 else 0) + (if truthyQ rate then 25 else 0) +
    (if truthyQ miles then 20 else 0) + (if truthyS equipment then 10 else 0) +
    (if truthyS loadNumber then 5 else 0) + (if truthyQ weight then 5 else 0) +
    (if dates.1.isSome then 3 else 0) + (if dates.2.isSome then 2 else 0)
  finishLoad confidence {
    loadNumber := loadNumber,
    originCity := lane.map (·.originCity),
    originState := lane.map (·.originState),
    destCity := lane.map (·.destCity),
    destState := lane.map (·.destState),
    rate := rate, miles := miles, ratePerMile := ratePerMile,
    equipment := equipment, weight := weight,
    pickupDate := dates.1, deliveryDate := dates.2,
    contactName := contact.contactName, contactPhone := contact.contactPhone,
    contactEmail := contact.contactEmail,
    confidence := confidence }

/-- The `newsletterKeywords` of `isLoadOffer`. -/
def newsletterKeywords : List Str :=
  [S ("newsletter"), S ("weekly trucking news"), S ("market update"),
   S ("industry update"), S ("unsubscribe from future"), S ("update profile")]

/-- The `loadKeywords` of `isLoadOffer`. -/
def loadKeywords : List Str :=
  [S ("available load"), S ("load offer"), S ("pick"), S ("del"), S ("delivery"),
   S ("destination"), S ("origin"), S ("rate:"), S ("miles"), S ("equipment:")]

/-- `isLoadOffer`: newsletter veto, then at least two load-keyword hits. -/
def isLoadOffer (subject body : Str) : Bool :=
  let content := jsLower (subject ++ S (" ") ++ body)
  if newsletterKeywords.any (fun k => jsIncludes content k) then false
  else (loadKeywords.filter (fun k => jsIncludes content k)).length ≥ 2

/-!
The priority scorer (`calculatePriorityScore`, lines 460–522) and the
broker statistics recomputation (`updateBrokerStats`, lines 548–663;
`calculateRelationshipScore`, lines 668–696).
-/

/-- One entry of the `reasons` list of `calculatePriorityScore`.  The
constructors carry the interpolated values; the exact string formatting
(`toFixed(2)` etc.) is elided. -/
inductive FitReason where
  | excellentRate (rpm : ℚ)
  | goodRate (rpm : ℚ)
  | belowTargetRate
  | preferredOrigin (st : Str)
  | preferredDestination (st : Str)
  | equipmentMatch (e : Str)
  | goodDistance (miles : ℚ)
deriving DecidableEq

/-- The rate component of `calculatePriorityScore` (lines 470–482),
guarded by the truthiness of `load.ratePerMile`: 40 points at
`minRatePerMile + 1` and above, a flat 25 points from `minRatePerMile`
up to that, 10 points down to `minRatePerMile - 0.25` with a
below-target reason, otherwise nothing. -/
def rateComponent (ratePerMile : Option ℚ) (minRatePerMile : ℚ) :
    ℚ × List FitReason :=
  match ratePerMile with
  | some rpm =>
    if rpm = 0 then (0, [])
    else if rpm ≥ minRatePerMile + 1 then (40, [.excellentRate rpm])
    else if rpm ≥ minRatePerMile then (25, [.goodRate rpm])
    else if rpm ≥ minRatePerMile - 0.25 then (10, [.belowTargetRate])
    else (0, [])
  | none => (0, [])

/-- The state-token pattern `/\b([A-Z]{2})\b/` used on `load.origin` and
`load.destination`. -/
def stateTokenPattern : RE :=
  RE.cat [RE.wordB, RE.grp 1 (RE.rep 2 (some 2) (RE.cls false [rAZ])), RE.wordB]

/-- `load.origin?.match(/\b([A-Z]{2})\b/)?.[1]`. -/
def stateTokenOf (s : Option Str) : Option (Option Str) :=
  match s with
  | none => some none
  | some str =>
    (jsMatchFirst {} stateTokenPattern str).map (fun m? =>
      m?.bind (fun m => groupStr str m 1))

/-- The argument record of `calculatePriorityScore`. -/
structure PriorityLoad where
  origin : Option Str
  destination : Option Str
  distance : Option ℚ
  ratePerMile : Option ℚ
  equipment : Option Str
deriving DecidableEq

/-- `calculatePriorityScore`: rate (0–40), lane (0–30), equipment (0–20)
and distance (0–10) components, the total capped at 100, with the reasons
accumulated in source push order. -/
def calculatePriorityScore (prefs : CompanyPreferences) (load : PriorityLoad) :
    Option (ℚ × List FitReason) := do
  let rate := rateComponent load.ratePerMile prefs.minRatePerMile
  let originState ← stateTokenOf load.origin
  let destState ← stateTokenOf load.destination
  let originPart : ℚ × List FitReason :=
    match originState with
    | some st =>
      if st ≠ [] ∧ st ∈ prefs.preferredStates then (15, [.preferredOrigin st])
      else (0, [])
    | none => (0, [])
  let destPart : ℚ × List FitReason :=
    match destState with
    | some st =>
      if st ≠ [] ∧ st ∈ prefs.preferredStates then (15, [.preferredDestination st])
      else (0, [])
    | none => (0, [])
  let equipPart : ℚ × List FitReason :=
    match load.equipment with
    | some e =>
      if e ≠ [] ∧ prefs.preferredEquipment.any (fun pe =>
          jsIncludes (jsLower e) (jsLower pe)) then (20, [.equipmentMatch e])
      else (0, [])
    | none => (0, [])
  let distPart : ℚ × List FitReason :=
    match load.distance with
    | some d =>
      if d = 0 then (0, [])
      else if d ≤ prefs.maxDistance then (10, [.goodDistance d])
      else if d ≤ prefs.maxDistance * 1.5 then (5, [])
      else (0, [])
    | none => (0, [])
  let score := rate.1 + originPart.1 + destPart.1 + equipPart.1 + distPart.1
  some (min score 100,
    rate.2 ++ originPart.2 ++ destPart.2 ++ equipPart.2 ++ distPart.2)

/-- The argument record of `calculateRelationshipScore`. -/
structure RelStats where
  totalLoads : ℕ
  loadsThisMonth : ℕ
  avgRatePerMile : ℚ
  laneConsistency : ℚ
deriving DecidableEq

/-- `calculateRelationshipScore`: volume tier (up to 40), activity tier
(up to 30), rate-quality tier (up to 20) and `laneConsistency * 10`,
capped at 100. -/
def calculateRelationshipScore (prefs : CompanyPreferences) (stats : RelStats) : ℚ :=
  let volume : ℚ :=
    if stats.totalLoads ≥ 50 then 40
    else if stats.totalLoads ≥ 20 then 30
    else if stats.totalLoads ≥ 10 then 20
    else (stats.totalLoads : ℚ)
  let activity : ℚ :=
    if stats.loadsThisMonth ≥ 10 then 30
    else if stats.loadsThisMonth ≥ 5 then 20
    else if stats.loadsThisMonth ≥ 2 then 10
    else 0
  let rateQuality : ℚ :=
    if stats.avgRatePerMile ≥ prefs.minRatePerMile + 0.5 then 20
    else if stats.avgRatePerMile ≥ prefs.minRatePerMile then 15
    else if stats.avgRatePerMile ≥ prefs.minRatePerMile - 0.25 then 10
    else 0
  min (volume + activity + rateQuality + stats.laneConsistency * 10) 100

/-- One load row as read back from the store by `updateBrokerStats`
(timestamps in epoch milliseconds). -/
structure LoadRow where
  extractedAt : ℤ
  ratePerMile : Option ℚ
  origin : Option Str
  destination : Option Str
  brokerEmail : Option Str
deriving DecidableEq

/-- One `topLanes` entry. -/
structure LaneStat where
  lane : Str
  count : ℕ
  avgRate : Option ℚ
deriving DecidableEq

/-- The stored `BrokerStats` record. -/
structure BrokerStatsRec where
  broker : Str
  brokerEmail : Option Str
  totalLoads : ℕ
  loadsThisMonth : ℕ
  loadsThisWeek : ℕ
  avgRatePerMile : Option ℚ
  highestRate : Option ℚ
  lowestRate : Option ℚ
  topLanes : List LaneStat
  laneCount : ℕ
  firstContactDate : ℤ
  lastContactDate : ℤ
  avgDaysBetween : Option ℚ
  relationshipScore : ℚ
deriving DecidableEq

/-- Decimal digit character. -/
def digitCh : ℕ → Char
  | 0 => '0' | 1 => '1' | 2 => '2' | 3 => '3' | 4 => '4'
  | 5 => '5' | 6 => '6' | 7 => '7' | 8 => '8' | _ => '9'

/-- Decimal digits of a natural number, most significant first (fuelled;
the fuel `n + 1` always suffices). -/
def decStrAux : ℕ → ℕ → Str
  | 0, _ => []
  | f + 1, n => if n < 10 then [digitCh n] else decStrAux f (n / 10) ++ [digitCh (n % 10)]

/-- Decimal string of a natural number. -/
def decStr (n : ℕ) : Str := decStrAux (n + 1) n

/-- ECMAScript `ToString` of an integer (the implicit conversion the
default `Array.prototype.sort` applies to its elements). -/
def jsNumToStr (n : ℤ) : Str :=
  if n < 0 then '-' :: decStr n.natAbs else decStr n.toNat

/-- Lexicographic less-or-equal on strings by UTF-16 code unit, the string
comparison of the default `sort` comparator. -/
def lexLeStr : Str → Str → Bool
  | [], _ => true
  | _ :: _, [] => false
  | a :: as, b :: bs => if a < b then true else if b < a then false else lexLeStr as bs

/-- The default-comparator sort order on numbers: compare decimal string
representations lexicographically (`dates.sort()` at line 616 passes no
comparator, so ECMAScript stringifies the timestamps). -/
def dateLe (a b : ℤ) : Prop := lexLeStr (jsNumToStr a) (jsNumToStr b) = true

instance : DecidableRel dateLe := fun a b => by unfold dateLe; infer_instance

/-- Rate push into a lane bucket, guarded by the truthiness of
`load.ratePerMile`. -/
def pushRate (rs : List ℚ) (rpm : Option ℚ) : List ℚ :=
  match rpm with
  | some r => if r ≠ 0 then rs ++ [r] else rs
  | none => rs

/-- Update of the insertion-ordered lane map for one load. -/
def bumpLane : List (Str × ℕ × List ℚ) → Str → Option ℚ → List (Str × ℕ × List ℚ)
  | [], lane, rpm => [(lane, 1, pushRate [] rpm)]
  | (k, c, rs) :: rest, lane, rpm =>
    if k = lane then (k, c + 1, pushRate rs rpm) :: rest
    else (k, c, rs) :: bumpLane rest lane rpm

/-- The `laneMap` of `updateBrokerStats`: loads with truthy origin and
destination, keyed by the joined lane string, in first-insertion order. -/
def laneMapOf (loads : List LoadRow) : List (Str × ℕ × List ℚ) :=
  loads.foldl (fun m load =>
    match load.origin, load.destination with
    | some o, some d =>
      if o ≠ [] ∧ d ≠ [] then bumpLane m (o ++ S (" → ") ++ d) load.ratePerMile
      else m
    | _, _ => m) []

/-- `Math.max(...xs)` over a nonempty list. -/
def jsMaxList : List ℚ → Option ℚ
  | [] => none
  | x :: xs => some (xs.foldl max x)

/-- `Math.min(...xs)` over a nonempty list. -/
def jsMinList : List ℚ → Option ℚ
  | [] => none
  | x :: xs => some (xs.foldl min x)

/-- The `topLanes` computation: per-lane count and average rate, stable
sort by count descending, first five kept. -/
def topLanesOf (entries : List (Str × ℕ × List ℚ)) : List LaneStat :=
  ((entries.map (fun e =>
      ({ lane := e.1, count := e.2.1,
         avgRate := if e.2.2.length > 0 then some (e.2.2.sum / e.2.2.length) else none }
        : LaneStat))).insertionSort (fun a b => b.count ≤ a.count)).take 5

/-- `updateBrokerStats` (lines 548–663) as a pure function of the
evaluation instant `now`, the load history read from the store, and the
previously stored record: an empty history leaves the store untouched;
otherwise the freshly computed statistics replace the stored row, the
`update` branch of the upsert keeping the stored `firstContactDate` and
the `create` branch initialising it from `allLoads[0]`. -/
def updateBrokerStats (prefs : CompanyPreferences) (brokerName : Str) (now : ℤ)
    (allLoads : List LoadRow) (stored : Option BrokerStatsRec) :
    Option BrokerStatsRec :=
  match allLoads with
  | [] => stored
  | first :: rest =>
    let allLoads := first :: rest
    let oneWeekAgo := now - 7 * 24 * 60 * 60 * 1000
    let oneMonthAgo := now - 30 * 24 * 60 * 60 * 1000
    let loadsThisWeek := (allLoads.filter (fun l => oneWeekAgo ≤ l.extractedAt)).length
    let loadsThisMonth := (allLoads.filter (fun l => oneMonthAgo ≤ l.extractedAt)).length
    let ratesPerMile := allLoads.filterMap (·.ratePerMile)
    let avgRatePerMile :=
      if ratesPerMile.length > 0 then some (ratesPerMile.sum / ratesPerMile.length)
      else none
    let highestRate := jsMaxList ratesPerMile
    let lowestRate := jsMinList ratesPerMile
    let laneMap := laneMapOf allLoads
    let topLanes := topLanesOf laneMap
    let relationshipScore := calculateRelationshipScore prefs {
      totalLoads := allLoads.length,
      loadsThisMonth := loadsThisMonth,
      avgRatePerMile := (jsOrQ avgRatePerMile (some 0)).getD 0,
      laneConsistency :=
        match topLanes.head? with
        | some t => (t.count : ℚ) / (allLoads.length : ℚ)
        | none => 0 }
    let dates := (allLoads.map (·.extractedAt)).insertionSort dateLe
    let avgDaysBetween :=
      if dates.length > 1 then
        some ((((dates.getLast?.getD 0 - dates.head?.getD 0 : ℤ) : ℚ) /
          ((dates.length - 1 : ℕ) : ℚ)) / (24 * 60 * 60 * 1000))
      else none
    match stored with
    | none =>
      some { broker := brokerName,
             brokerEmail := first.brokerEmail,
             totalLoads := allLoads.length,
             loadsThisMonth := loadsThisMonth,
             loadsThisWeek := loadsThisWeek,
             avgRatePerMile := avgRatePerMile,
             highestRate := highestRate,
             lowestRate := lowestRate,
             topLanes := topLanes,
             laneCount := laneMap.length,
             firstContactDate := first.extractedAt,
             lastContactDate := now,
             avgDaysBetween := avgDaysBetween,
             relationshipScore := relationshipScore }
    | some e =>
      some { broker := e.broker,
             brokerEmail := first.brokerEmail,
             totalLoads := allLoads.length,
             loadsThisMonth := loadsThisMonth,
             loadsThisWeek := loadsThisWeek,
             avgRatePerMile := avgRatePerMile,
             highestRate := highestRate,
             lowestRate := lowestRate,
             topLanes := topLanes,
             laneCount := laneMap.length,
             firstContactDate := e.firstContactDate,
             lastContactDate := now,
             avgDaysBetween := avgDaysBetween,
             relationshipScore := relationshipScore }

/-!
Embedding of `BrokerIdentifierService`
(third document in the source file, lines 1213–1754).
-/

/-- One `KNOWN_BROKERS` entry; the `type` is the string literal of the
source union type. -/
structure BrokerInfo where
  name : Str
  domain : Str
  type : Str
deriving DecidableEq

/-- The `KNOWN_BROKERS` seed registry, in source order. -/
def KNOWN_BROKERS : List BrokerInfo :=
  [⟨S ("C.H. Robinson"), S ("chrobinson.com"), S ("major")⟩,
   ⟨S ("TQL (Total Quality Logistics)"), S ("tql.com"), S ("major")⟩,
   ⟨S ("XPO Logistics"), S ("xpo.com"), S ("major")⟩,
   ⟨S ("Coyote Logistics"), S ("coyote.com"), S ("major")⟩,
   ⟨S ("Echo Global Logistics"), S ("echo.com"), S ("major")⟩,
   ⟨S ("Landstar"), S ("landstar.com"), S ("major")⟩,
   ⟨S ("J.B. Hunt"), S ("jbhunt.com"), S ("major")⟩,
   ⟨S ("Schneider"), S ("schneider.com"), S ("major")⟩,
   ⟨S ("Arrive Logistics"), S ("arrivelogistics.com"), S ("major")⟩,
   ⟨S ("RXO (formerly Coyote)"), S ("rxo.com"), S ("major")⟩,
   ⟨S ("Worldwide Express"), S ("wwex.com"), S ("regional")⟩,
   ⟨S ("GlobalTranz"), S ("globaltranz.com"), S ("regional")⟩,
   ⟨S ("Redwood Logistics"), S ("redwoodlogistics.com"), S ("regional")⟩,
   ⟨S ("Armstrong Transport"), S ("armstrongtransport.com"), S ("regional")⟩,
   ⟨S ("Nolan Transportation Group"), S ("ntgfreight.com"), S ("regional")⟩,
   ⟨S ("Mode Transportation"), S ("modetransportation.com"), S ("regional")⟩,
   ⟨S ("Mode Global"), S ("modeglobal.com"), S ("regional")⟩,
   ⟨S ("Capstone Logistics"), S ("capstonelog.com"), S ("regional")⟩,
   ⟨S ("Covenant Logistics"), S ("covenantlogistics.com"), S ("regional")⟩,
   ⟨S ("BNSF Logistics"), S ("bnsflogistics.com"), S ("regional")⟩,
   ⟨S ("Allen Lund Company"), S ("allenlund.com"), S ("regional")⟩,
   ⟨S ("Tanager Logistics"), S ("tanagerlogistics.com"), S ("regional")⟩,
   ⟨S ("First Connect Worldwide"), S ("firstconnectworldwide.com"), S ("regional")⟩,
   ⟨S ("Hub Group"), S ("hubgroup.com"), S ("regional")⟩,
   ⟨S ("ArcBest Corporation"), S ("arcb.com"), S ("regional")⟩,
   ⟨S ("ArcBest Corporation"), S ("arcbestcorp.com"), S ("regional")⟩,
   ⟨S ("ATS Inc."), S ("atsinc.com"), S ("regional")⟩,
   ⟨S ("Bay & Bay Transportation"), S ("bayandbay.com"), S ("regional")⟩,
   ⟨S ("Priority1 Inc."), S ("priority1.com"), S ("regional")⟩,
   ⟨S ("Scoular"), S ("scoular.com"), S ("regional")⟩,
   ⟨S ("Ryan Transportation"), S ("rtsnational.com"), S ("regional")⟩,
   ⟨S ("PLS Logistics Services"), S ("plslogistics.com"), S ("regional")⟩,
   ⟨S ("Aloe Logistics"), S ("aloelogistics.com"), S ("regional")⟩,
   ⟨S ("Ascent Global Logistics"), S ("ascentgl.com"), S ("regional")⟩,
   ⟨S ("Ascent Global Logistics"), S ("ascentglobal.com"), S ("regional")⟩,
   ⟨S ("TFS Logistics"), S ("tfslogistics.com"), S ("regional")⟩,
   ⟨S ("Trinity Logistics"), S ("trinitylogistics.com"), S ("regional")⟩,
   ⟨S ("KAG Logistics"), S ("kaglogistics.com"), S ("regional")⟩,
   ⟨S ("Convoy"), S ("convoy.com"), S ("digital")⟩,
   ⟨S ("Transfix"), S ("transfix.io"), S ("digital")⟩,
   ⟨S ("Uber Freight"), S ("uberfreight.com"), S ("digital")⟩,
   ⟨S ("Loadsmart"), S ("loadsmart.com"), S ("digital")⟩,
   ⟨S ("Freightos"), S ("freightos.com"), S ("digital")⟩,
   ⟨S ("Shipwell"), S ("shipwell.com"), S ("digital")⟩,
   ⟨S ("project44"), S ("project44.com"), S ("digital")⟩,
   ⟨S ("Parade"), S ("parade.ai"), S ("digital")⟩,
   ⟨S ("Parade"), S ("mail.parade.ai"), S ("digital")⟩,
   ⟨S ("Flock Freight"), S ("flockfreight.com"), S ("digital")⟩,
   ⟨S ("next Trucking"), S ("nexttrucking.com"), S ("digital")⟩,
   ⟨S ("Crowley"), S ("crowley.com"), S ("major")⟩]

/-- One row step of the Wagner–Fischer recurrence of
`levenshteinDistance`: `c2` is the current character of `str2`, the list
argument is the previous row from column `j - 1` on, `left` is the value
just computed in the current row. -/
def levRowAux (c2 : Char) : Str → List ℕ → ℕ → List ℕ
  | [], _, _ => []
  | _ :: _, [], _ => []
  | c1 :: cs, pd :: prest, left =>
    let up := prest.head?.getD 0
    let v := if c2 = c1 then pd else min (min pd left) up + 1
    v :: levRowAux c2 cs prest v

/-- `levenshteinDistance`: the matrix of the source, built row by row;
equal characters copy the diagonal, others take the minimum neighbour
plus one. -/
def levenshteinDistance (str1 str2 : Str) : ℕ :=
  let row0 := List.range (str1.length + 1)
  let final := str2.foldl
    (fun (acc : List ℕ × ℕ) c2 =>
      let i := acc.2 + 1
      (i :: levRowAux c2 str1 acc.1 i, i))
    (row0, 0)
  final.1.getLast?.getD 0

/-- `calculateSimilarity`: 1 for an empty longer string, 0.85 when one
string contains the other, otherwise the normalised edit distance. -/
def calculateSimilarity (str1 str2 : Str) : ℚ :=
  let longer := if str1.length > str2.length then str1 else str2
  let shorter := if str1.length > str2.length then str2 else str1
  if longer.length = 0 then 1
  else if jsIncludes longer shorter then 0.85
  else ((longer.length : ℚ) - levenshteinDistance str1 str2) / (longer.length : ℚ)

/-- The infrastructure tokens of the anchored strip
`replace(/^(mail|smtp|email|webmail|mx|send)\./, '')`, in alternation
order. -/
def mailInfraTokens : List Str :=
  [S ("mail"), S ("smtp"), S ("email"), S ("webmail"), S ("mx"), S ("send")]

/-- The anchored strip itself: the alternation is anchored at the start,
so it removes the first listed token (with its dot) that prefixes the
domain, once. -/
def stripInfra (domain : Str) : Str :=
  match mailInfraTokens.find? (fun t => jsStartsWith domain (t ++ [ '.' ])) with
  | some t => domain.drop (t.length + 1)
  | none => domain

/-- `findMatchingBroker`: per entry, exact/subdomain match returns 1.0 at
once, the infrastructure-stripped retry returns 0.95 at once, a
normalised similarity of at least 0.75 and the base-name containment
(0.8, base name longer than 4) update the running best match. -/
def findMatchingBroker (brokers : List BrokerInfo) (domain : Str) :
    Option (BrokerInfo × ℚ) :=
  let rec go : List BrokerInfo → Option (BrokerInfo × ℚ) → Option (BrokerInfo × ℚ)
    | [], best => best
    | b :: rest, best =>
      if domain = b.domain ∨ jsEndsWith domain ('.' :: b.domain) then some (b, 1)
      else
        let cleanDomain := stripInfra domain
        if cleanDomain = b.domain ∨ jsEndsWith cleanDomain ('.' :: b.domain) then
          some (b, 0.95)
        else
          let similarity := calculateSimilarity cleanDomain b.domain
          let best1 :=
            if similarity ≥ 0.75 then
              match best with
              | none => some (b, similarity)
              | some bm => if similarity > bm.2 then some (b, similarity) else best
            else best
          let brokerBaseName := b.domain.takeWhile (fun c => c ≠ '.')
          let best2 :=
            if jsIncludes domain brokerBaseName ∧ brokerBaseName.length > 4 then
              match best1 with
              | none => some (b, 0.8)
              | some bm => if (0.8 : ℚ) > bm.2 then some (b, 0.8) else best1
            else best1
          go rest best2
  go brokers none

/-- `extractDomain`: the regex `/@(.+)$/` on the lowercased address. -/
def extractDomain (email : Str) : Option (Option Str) :=
  (jsMatchFirst {} (RE.cat [RE.ch '@', RE.grp 1 (RE.plus RE.dot), RE.eol])
    email).map (fun m? => m?.bind (fun m => groupStr email m 1))

/-- The broker-indicating domain substrings of `hasBrokerDomainPattern`. -/
def brokerDomainTokens : List Str :=
  [S ("logistics"), S ("freight"), S ("transport"), S ("shipping"), S ("cargo"),
   S ("delivery"), S ("carrier"), S ("trucking"), S ("brokerage"),
   S ("supply-chain"), S ("supplychain"), S ("3pl")]

/-- `hasBrokerDomainPattern`. -/
def hasBrokerDomainPattern (domain : Str) : Bool :=
  brokerDomainTokens.any (fun t => jsIncludes domain t)

/-- `formatDomainAsName`: drop a trailing TLD, dashes and underscores to
spaces, remove `mail` words, trim, and capitalise each word. -/
def formatDomainAsName (domain : Str) : Option Str := do
  let t1 ← jsReplaceFirst {}
    (RE.cat [RE.ch '.',
      RE.grp 1 (RE.alts [L ("com"), L ("net"), L ("org"), L ("io"), L ("co"), L ("ai")]),
      RE.eol]) [] domain
  let t2 ← jsReplaceAll {} (RE.cls false [CItem.ch '-', CItem.ch '_']) (S (" ")) t1
  let t3 ← jsReplaceAll {i := true} (RE.cat [RE.wordB, L ("mail"), RE.wordB]) [] t2
  let t4 := jsTrim t3
  some (List.intercalate (S (" "))
    ((jsSplitCh ' ' t4).map (fun w =>
      match w with
      | [] => []
      | c :: r => Char.toUpper c :: r)))

/-- The confidence tiers. -/
inductive Confidence where
  | high
  | medium
  | low
deriving DecidableEq

/-- The result record of `identifyBroker`. -/
structure BrokerIdent where
  isBroker : Bool
  brokerName : Option Str
  brokerType : Option Str
  confidence : Confidence
  similarityScore : Option ℚ
deriving DecidableEq

/-- The rejection value of `identifyBroker` (each of its `isBroker: false`
returns carries exactly these fields). -/
def notBrokerIdent : BrokerIdent :=
  { isBroker := false, brokerName := none, brokerType := none,
    confidence := .low, similarityScore := none }

/-- `identifyBroker`: guard on the address, extract and match the domain,
tier the similarity (0.95 high, 0.80 medium), fall back to the
domain-pattern heuristic at medium confidence, otherwise reject. -/
def identifyBroker (brokers : List BrokerInfo) (fromEmail : Str) :
    Option BrokerIdent :=
  if fromEmail = [] then some notBrokerIdent
  else do
    let emailLower := jsLower fromEmail
    let domain? ← extractDomain emailLower
    match domain? with
    | none => some notBrokerIdent
    | some domain =>
      if domain = [] then some notBrokerIdent
      else
        match findMatchingBroker brokers domain with
        | some (b, sim) =>
          some { isBroker := true, brokerName := some b.name,
                 brokerType := some b.type,
                 confidence :=
                   if sim ≥ 0.95 then .high
                   else if sim ≥ 0.80 then .medium else .low,
                 similarityScore := some sim }
        | none =>
          if hasBrokerDomainPattern domain then do
            let nm ← formatDomainAsName domain
            some { isBroker := true, brokerName := some nm,
                   brokerType := some (S ("unknown")), confidence := .medium,
                   similarityScore := none }
          else some notBrokerIdent

/-- The `BROKER_KEYWORDS` list, in source order. -/
def BROKER_KEYWORDS : List Str :=
  [S ("load available"), S ("load offer"), S ("load offers"), S ("freight opportunity"),
   S ("available load"), S ("hot load"), S ("urgent load"), S ("load tender"),
   S ("backhaul"), S ("deadhead"), S ("lane opportunity"), S ("dedicated lane"),
   S ("opportunity"),
   S ("reefer"), S ("dry van"), S ("flatbed"), S ("step deck"), S ("power only"),
   S ("team driver"), S ("solo driver"), S ("hazmat"),
   S ("rate confirmation"), S ("load confirmation"), S ("signed rate confirmation"),
   S ("confirmation for load"), S ("load status"), S ("status update"),
   S ("carrier packet"), S ("please provide mc"), S ("mc number"), S ("dot number"),
   S ("w9 required"), S ("insurance certificate"), S ("carrier agreement"),
   S ("pickup scheduled"), S ("delivery scheduled"), S ("pick up"), S ("pickup:"),
   S ("delivery:"), S ("pickup time"), S ("delivery time"), S ("pickup timing"),
   S ("delivery timing"),
   S ("load #"), S ("load#"), S ("bol"), S ("bill of lading"),
   S ("rate quote"), S ("freight quote"), S ("rate per mile"), S ("all-in rate"),
   S ("linehaul"),
   S ("origin:"), S ("destination:"), S ("from:"), S ("to:")]

/-- The `MAJOR_FREIGHT_CITIES` list. -/
def MAJOR_FREIGHT_CITIES : List Str :=
  [S ("chicago"), S ("dallas"), S ("houston"), S ("atlanta"), S ("los angeles"),
   S ("phoenix"), S ("memphis"), S ("detroit"), S ("columbus"), S ("charlotte"),
   S ("indianapolis"), S ("seattle"), S ("denver"), S ("kansas city"),
   S ("nashville"), S ("miami"), S ("san antonio"), S ("laredo"), S ("el paso"),
   S ("jacksonville"), S ("cincinnati")]

/-- The `BROKER_SUBJECT_PATTERNS`, in source order (each carries the `i`
flag). -/
def BROKER_SUBJECT_PATTERNS : List RE :=
  [RE.cat [L ("load"), sStar, RE.opt (RE.ch '#'), RE.plus pD],
   RE.cat [RE.plus pW, RE.opt (RE.ch ','), sPlus, RE.plus pW, sPlus,
     RE.alts [L ("to"), RE.ch '→', RE.cat [RE.plus (RE.ch '-'), RE.ch '>']],
     sPlus, RE.plus pW, RE.opt (RE.ch ','), sPlus, RE.plus pW],
   RE.cat [L ("confirmation"), sPlus, L ("for")],
   RE.cat [L ("rate"), sPlus, L ("confirmation")],
   RE.cat [L ("load"), sPlus, L ("status")],
   RE.cat [L ("freight"), sPlus, L ("opportunity")],
   RE.cat [RE.rep 5 none pD, sStar, RE.cls false [CItem.ch '-', CItem.ch '—'],
     sStar, RE.plus pW],
   RE.cat [L ("pick"), sStar, L ("up")],
   RE.cat [L ("delivery"), sPlus, L ("update")]]

/-- Short-circuiting `Array.prototype.some` where the predicate may run
out of matcher fuel. -/
def anyOptB (l : List α) (f : α → Option Bool) : Option Bool :=
  l.foldl
    (fun acc x => do
      let a ← acc
      if a then some true else f x)
    (some false)

/-- The result record of `analyzeContent`. -/
structure ContentAnalysis where
  hasBrokerKeywords : Bool
  matchedKeywords : List Str
  hasStateReferences : Bool
  hasCityReferences : Bool
  subjectMatches : Bool
  score : ℕ
deriving DecidableEq

/-- `analyzeContent`: keyword hits over the lowercased subject and body,
a `\bST\b` state-token probe, a freight-city probe, the subject-pattern
probe on the raw subject, and the combined score (`+3` subject, `+2`
states, `+1` cities); `hasBrokerKeywords` is `score >= 2`. -/
def analyzeContent (subject body : Str) : Option ContentAnalysis := do
  let content := jsLower (subject ++ S (" ") ++ body)
  let matchedKeywords := BROKER_KEYWORDS.filter (fun k => jsIncludes content k)
  let hasStateReferences ← anyOptB US_STATES (fun st =>
    jsTest {i := true} (RE.cat [RE.wordB, RE.lit st, RE.wordB]) content)
  let hasCityReferences := MAJOR_FREIGHT_CITIES.any (fun c => jsIncludes content c)
  let subjectMatches ← anyOptB BROKER_SUBJECT_PATTERNS (fun p =>
    jsTest {i := true} p subject)
  let score := matchedKeywords.length + (if subjectMatches then 3 else 0) +
    (if hasStateReferences then 2 else 0) + (if hasCityReferences then 1 else 0)
  some { hasBrokerKeywords := score ≥ 2,
         matchedKeywords := matchedKeywords,
         hasStateReferences := hasStateReferences,
         hasCityReferences := hasCityReferences,
         subjectMatches := subjectMatches,
         score := score }

/-- The result record of `isLikelyBrokerEmail`. -/
structure LikelyBroker where
  isBroker : Bool
  brokerName : Option Str
  confidence : Confidence
  reasoning : Str
deriving DecidableEq

/-- JavaScript template interpolation of a nullable string. -/
def jsShowOpt (o : Option Str) : Str := o.getD (S ("null"))

/-- The rejection value of `isLikelyBrokerEmail` (its only
`isBroker: false` return). -/
def notLikelyBroker : LikelyBroker :=
  { isBroker := false, brokerName := none, confidence := .low,
    reasoning := S ("No strong broker indicators") }

/-- `isLikelyBrokerEmail`: the ordered combined rule list over the domain
check and the content check; the reasoning strings carry the interpolated
numbers rendered in decimal. -/
def isLikelyBrokerEmail (brokers : List BrokerInfo)
    (fromEmail subject body : Str) : Option LikelyBroker := do
  let domainCheck ← identifyBroker brokers fromEmail
  let contentCheck ← analyzeContent subject body
  if domainCheck.isBroker ∧ domainCheck.confidence = .high then
    some { isBroker := true, brokerName := domainCheck.brokerName,
           confidence := .high,
           reasoning := S ("Known broker domain: ") ++ jsShowOpt domainCheck.brokerName ++
             (match domainCheck.similarityScore with
              | some sim =>
                if sim ≠ 0 then
                  S (" (") ++ jsNumToStr (jsRound (sim * 100)) ++ S ("% match)")
                else []
              | none => []) }
  else if contentCheck.subjectMatches ∧ contentCheck.score ≥ 4 then
    some { isBroker := true, brokerName := domainCheck.brokerName,
           confidence := .high,
           reasoning := S ("Strong broker patterns: score ") ++ decStr contentCheck.score }
  else if contentCheck.subjectMatches ∧ contentCheck.hasStateReferences ∧
      contentCheck.matchedKeywords.length ≥ 2 then
    some { isBroker := true, brokerName := domainCheck.brokerName,
           confidence := .high,
           reasoning := S ("Broker subject + locations + ") ++
             decStr contentCheck.matchedKeywords.length ++ S (" keywords") }
  else if domainCheck.confidence = .medium ∧ contentCheck.hasBrokerKeywords then
    some { isBroker := true, brokerName := domainCheck.brokerName,
           confidence := .medium,
           reasoning := S ("Broker-like domain with ") ++ decStr contentCheck.score ++
             S (" freight indicators") }
  else if (¬ domainCheck.isBroker) ∧ contentCheck.score ≥ 4 then
    some { isBroker := true, brokerName := none, confidence := .medium,
           reasoning := S ("Strong freight content (score: ") ++
             decStr contentCheck.score ++ S (")") }
  else if contentCheck.subjectMatches ∧ contentCheck.score ≥ 2 then
    some { isBroker := true, brokerName := none, confidence := .medium,
           reasoning := S ("Broker subject pattern + freight keywords") }
  else
    some notLikelyBroker

/-!
Concrete configuration and inputs used by the theorems below.
-/

/-- The shipped `COMPANY_PREFERENCES` configuration
(`src/config/company-preferences.ts`). -/
def COMPANY_PREFERENCES : CompanyPreferences :=
  { minRatePerMile := 2,
    preferredStates := [S ("TX"), S ("OK"), S ("LA"), S ("AR"), S ("NM")],
    preferredEquipment := [S ("Dry Van"), S ("Reefer")],
    maxDistance := 500,
    homeBase := S ("Dallas, TX") }

/-!
Comparison definitions written from the wording of the specification
claims (never used inside the embedded program): the linear rate mapping
the Load Fit Scorer claim describes, and the chronological
average-days-between-contacts formula.
-/

/-- Modelled from the spec claim wording for the Load Fit Scorer rate
component: a linear partial credit mapping the interval
`[minRatePerMile, minRatePerMile + 1)` onto 25–40 points. -/
def specLinearRatePoints (rpm minRatePerMile : ℚ) : ℚ :=
  25 + 15 * (rpm - minRatePerMile)

/-- Maximum of a list of integers (`none` on the empty list). -/
def listMaxZ : List ℤ → Option ℤ
  | [] => none
  | x :: xs => some (xs.foldl max x)

/-- Minimum of a list of integers (`none` on the empty list). -/
def listMinZ : List ℤ → Option ℤ
  | [] => none
  | x :: xs => some (xs.foldl min x)

/-- Modelled from the spec claim wording for `avgDaysBetweenContacts`:
(latest timestamp − earliest timestamp) / (count − 1), converted to
days, absent for histories with fewer than two loads. -/
def specAvgDaysBetweenContacts (loads : List LoadRow) : Option ℚ :=
  if loads.length > 1 then
    some (((((listMaxZ (loads.map (·.extractedAt))).getD 0 -
        (listMinZ (loads.map (·.extractedAt))).getD 0 : ℤ) : ℚ) /
      ((loads.length - 1 : ℕ) : ℚ)) / ((24 * 60 * 60 * 1000 : ℤ) : ℚ))
  else none

/-!
Theorems.  The Batteries rational operations are marked irreducible for
the elaborator; restoring semireducibility lets `decide` evaluate the
embedded program on concrete inputs (the kernel is unaffected and
re-checks every such proof).
-/

set_option allowUnsafeReducibility true

attribute [local semireducible] Rat.add Rat.mul Rat.sub Rat.inv Rat.ofScientific

set_option maxRecDepth 1000000

/-- C1 counterexample: the message body `Rate: $3016 201 miles` yields
rate 3016 and miles 201 (both inside their range filters), the true
quotient 3016/201 exceeds the plausibility ceiling 15, yet the extracted
signal still carries `ratePerMile = 15.00`, because the source compares
the ceiling against the already-rounded value. -/
theorem C1_counterexample :
    (extractLoad [] [] (S ("Rate: $3016 201 miles")) (S ("b@y.com"))).map
        (fun o => o.map (fun d => (d.rate, d.miles, d.ratePerMile))) =
      some (some (some 3016, some 201, some 15)) ∧
    (15 : ℚ) < 3016 / 201 := by
  decide

/-- C1 (amended): for every rate and miles passing their range filters,
the derived `ratePerMile` equals `round(rate / miles, 2)` when that
rounded value is at most 15 and is absent when the rounded value exceeds
15 (for `rate = 10000, miles = 100` the rounded value is 100, so the
field is absent; see the witness). -/
theorem C1_theorem (rate miles : ℚ) (h1 : 300 ≤ rate) (h2 : rate ≤ 15000)
    (h3 : 50 ≤ miles) (h4 : miles ≤ 3500) :
    deriveRatePerMile (some rate) (some miles) =
      if round2 (rate / miles) ≤ 15 then some (round2 (rate / miles)) else none := by
  have hr : ¬ (rate = 0 ∨ miles = 0) := by
    rintro (h | h) <;> subst h <;> linarith
  simp only [deriveRatePerMile]
  rw [if_neg hr]
  by_cases hle : round2 (rate / miles) ≤ 15
  · rw [if_neg (not_lt.mpr hle), if_pos hle]
  · rw [if_pos (not_le.mp hle), if_neg hle]

/-- C1 witness: the theorem applied at the claim instance
`rate = 10000, miles = 100`, whose rounded rate per mile (100) exceeds
the ceiling, so `ratePerMile` is absent. -/
theorem C1_witness :
    deriveRatePerMile (some 10000) (some 100) = none := by
  rw [C1_theorem 10000 100 (by norm_num) (by norm_num) (by norm_num) (by norm_num)]
  decide

/-- C2 counterexample: at `minRatePerMile = 2` and `ratePerMile = 2.5`
(inside the band `[minRatePerMile, minRatePerMile + 1)`), the code awards
a flat 25 points, while the linear 25–40 mapping the claim states would
award 32.5. -/
theorem C2_counterexample :
    (2 : ℚ) ≤ 5 / 2 ∧ (5 / 2 : ℚ) < 2 + 1 ∧
    (rateComponent (some (5 / 2)) 2).1 = 25 ∧
    specLinearRatePoints (5 / 2) 2 = 65 / 2 ∧
    (25 : ℚ) ≠ 65 / 2 := by
  refine ⟨by norm_num, by norm_num, by decide, ?_, by norm_num⟩
  unfold specLinearRatePoints
  norm_num

/-- C2 (amended): the rate component of the Load Fit Scorer, for a
present nonzero `ratePerMile`, awards 40 points when
`ratePerMile ≥ minRatePerMile + 1`, a flat 25 points when
`minRatePerMile ≤ ratePerMile < minRatePerMile + 1` (not a linear 25–40
mapping), 10 points with a below-target reason when
`minRatePerMile − 0.25 ≤ ratePerMile < minRatePerMile`, and otherwise 0;
an absent or zero `ratePerMile` contributes 0 points. -/
theorem C2_theorem (rpm minRate : ℚ) (h0 : rpm ≠ 0) :
    (minRate + 1 ≤ rpm →
      rateComponent (some rpm) minRate = (40, [FitReason.excellentRate rpm])) ∧
    (minRate ≤ rpm → rpm < minRate + 1 →
      rateComponent (some rpm) minRate = (25, [FitReason.goodRate rpm])) ∧
    (minRate - 0.25 ≤ rpm → rpm < minRate →
      rateComponent (some rpm) minRate = (10, [FitReason.belowTargetRate])) ∧
    (rpm < minRate - 0.25 → rateComponent (some rpm) minRate = (0, [])) ∧
    rateComponent none minRate = (0, []) ∧
    rateComponent (some 0) minRate = (0, []) := by
  simp only [rateComponent]
  refine ⟨?_, ?_, ?_, ?_, by trivial, by norm_num⟩
  · intro h
    rw [if_neg h0, if_pos (ge_iff_le.mpr h)]
  · intro h1 h2
    rw [if_neg h0, if_neg (by simpa using not_le.mpr h2), if_pos (ge_iff_le.mpr h1)]
  · intro h1 h2
    rw [if_neg h0, if_neg (by simp only [ge_iff_le, not_le]; linarith),
      if_neg (by simpa using not_le.mpr h2), if_pos (ge_iff_le.mpr h1)]
  · intro h
    rw [if_neg h0, if_neg (by simp only [ge_iff_le, not_le]; linarith),
      if_neg (by simp only [ge_iff_le, not_le]; linarith),
      if_neg (by simpa using not_le.mpr h)]

/-- C2 witness: the amended theorem applied at `ratePerMile = 3`,
`minRatePerMile = 2`, earning the full 40 points. -/
theorem C2_witness :
    rateComponent (some 3) 2 = (40, [FitReason.excellentRate 3]) :=
  (C2_theorem 3 2 (by norm_num)).1 (by norm_num)

theorem foldl_max_bounds {α : Type} [LinearOrder α] :
    ∀ (xs : List α) (a : α), a ≤ xs.foldl max a ∧ ∀ y ∈ xs, y ≤ xs.foldl max a := by
  intro xs
  induction xs with
  | nil => intro a; exact ⟨le_rfl, by simp⟩
  | cons z zs ih =>
    intro a
    rw [List.foldl_cons]
    refine ⟨le_trans (le_max_left a z) (ih (max a z)).1, ?_⟩
    intro y hy
    rcases List.mem_cons.mp hy with rfl | hy
    · exact le_trans (le_max_right a y) (ih (max a y)).1
    · exact (ih (max a z)).2 y hy

theorem foldl_max_mem {α : Type} [LinearOrder α] :
    ∀ (xs : List α) (a : α), xs.foldl max a = a ∨ xs.foldl max a ∈ xs := by
  intro xs
  induction xs with
  | nil => intro a; exact Or.inl rfl
  | cons z zs ih =>
    intro a
    rw [List.foldl_cons]
    rcases ih (max a z) with h | h
    · rcases max_choice a z with hc | hc
      · exact Or.inl (h.trans hc)
      · exact Or.inr (List.mem_cons.mpr (Or.inl (h.trans hc)))
    · exact Or.inr (List.mem_cons.mpr (Or.inr h))

theorem foldl_max_eq_of_mem {α : Type} [LinearOrder α] {l : List α} {a b : α}
    (ha : a ∈ l) (hb : b ∈ l) : l.foldl max a = l.foldl max b := by
  have key : ∀ {x y : α}, x ∈ l → y ∈ l → l.foldl max x ≤ l.foldl max y := by
    intro x y hx hy
    rcases foldl_max_mem l x with h | h
    · rw [h]; exact (foldl_max_bounds l y).2 x hx
    · exact (foldl_max_bounds l y).2 _ h
  exact le_antisymm (key ha hb) (key hb ha)

theorem jsMaxList_perm {l1 l2 : List ℚ} (hp : l1.Perm l2) :
    jsMaxList l1 = jsMaxList l2 := by
  cases l1 with
  | nil => rw [← hp.nil_eq]
  | cons x xs =>
    cases l2 with
    | nil => exact absurd hp.symm.nil_eq (by simp)
    | cons y ys =>
      have h1 : jsMaxList (x :: xs) = (x :: xs).foldl max x := by
        simp only [jsMaxList, List.foldl_cons, max_self]
      have h2 : jsMaxList (y :: ys) = (y :: ys).foldl max y := by
        simp only [jsMaxList, List.foldl_cons, max_self]
      rw [h1, h2, hp.foldl_eq x]
      exact congrArg some (foldl_max_eq_of_mem (hp.subset (List.mem_cons_self x xs))
        (List.mem_cons_self y ys))

theorem foldl_min_bounds {α : Type} [LinearOrder α] :
    ∀ (xs : List α) (a : α), xs.foldl min a ≤ a ∧ ∀ y ∈ xs, xs.foldl min a ≤ y := by
  intro xs
  induction xs with
  | nil => intro a; exact ⟨le_rfl, by simp⟩
  | cons z zs ih =>
    intro a
    rw [List.foldl_cons]
    refine ⟨le_trans (ih (min a z)).1 (min_le_left a z), ?_⟩
    intro y hy
    rcases List.mem_cons.mp hy with rfl | hy
    · exact le_trans (ih (min a y)).1 (min_le_right a y)
    · exact (ih (min a z)).2 y hy

theorem foldl_min_mem {α : Type} [LinearOrder α] :
    ∀ (xs : List α) (a : α), xs.foldl min a = a ∨ xs.foldl min a ∈ xs := by
  intro xs
  induction xs with
  | nil => intro a; exact Or.inl rfl
  | cons z zs ih =>
    intro a
    rw [List.foldl_cons]
    rcases ih (min a z) with h | h
    · rcases min_choice a z with hc | hc
      · exact Or.inl (h.trans hc)
      · exact Or.inr (List.mem_cons.mpr (Or.inl (h.trans hc)))
    · exact Or.inr (List.mem_cons.mpr (Or.inr h))

theorem foldl_min_eq_of_mem {α : Type} [LinearOrder α] {l : List α} {a b : α}
    (ha : a ∈ l) (hb : b ∈ l) : l.foldl min a = l.foldl min b := by
  have key : ∀ {x y : α}, x ∈ l → y ∈ l → l.foldl min y ≤ l.foldl min x := by
    intro x y hx hy
    rcases foldl_min_mem l x with h | h
    · rw [h]; exact (foldl_min_bounds l y).2 x hx
    · exact (foldl_min_bounds l y).2 _ h
  exact le_antisymm (key hb ha) (key ha hb)

theorem jsMinList_perm {l1 l2 : List ℚ} (hp : l1.Perm l2) :
    jsMinList l1 = jsMinList l2 := by
  cases l1 with
  | nil => rw [← hp.nil_eq]
  | cons x xs =>
    cases l2 with
    | nil => exact absurd hp.symm.nil_eq (by simp)
    | cons y ys =>
      have h1 : jsMinList (x :: xs) = (x :: xs).foldl min x := by
        simp only [jsMinList, List.foldl_cons, min_self]
      have h2 : jsMinList (y :: ys) = (y :: ys).foldl min y := by
        simp only [jsMinList, List.foldl_cons, min_self]
      rw [h1, h2, hp.foldl_eq x]
      exact congrArg some (foldl_min_eq_of_mem (hp.subset (List.mem_cons_self x xs))
        (List.mem_cons_self y ys))

theorem digitsVal_append (xs : Str) (c : Char) :
    digitsVal (xs ++ [c]) = 10 * digitsVal xs + (c.toNat - '0'.toNat) := by
  unfold digitsVal
  rw [List.foldl_append]
  rfl

theorem digitsVal_digitCh {n : ℕ} (h : n < 10) : digitsVal [digitCh n] = n := by
  interval_cases n <;> rfl

theorem digitCh_toNat {n : ℕ} (h : n < 10) : (digitCh n).toNat - '0'.toNat = n := by
  interval_cases n <;> rfl

theorem jsIsDigit_digitCh (n : ℕ) : jsIsDigit (digitCh n) = true := by
  unfold digitCh
  rcases n with _|_|_|_|_|_|_|_|_|n <;> rfl

theorem decStrAux_val : ∀ (f n : ℕ), n < 10 ^ f → digitsVal (decStrAux f n) = n := by
  intro f
  induction f with
  | zero =>
    intro n h
    interval_cases n
    rfl
  | succ f ih =>
    intro n h
    unfold decStrAux
    split_ifs with h10
    · exact digitsVal_digitCh h10
    · rw [digitsVal_append, ih (n / 10) ?_, digitCh_toNat (Nat.mod_lt _ (by norm_num))]
      · omega
      · rw [pow_succ] at h
        exact Nat.div_lt_of_lt_mul (by omega)

theorem decStr_val (n : ℕ) : digitsVal (decStr n) = n :=
  decStrAux_val (n + 1) n
    (lt_of_lt_of_le (Nat.lt_pow_self (by norm_num) n)
      (Nat.pow_le_pow_right (by norm_num) (Nat.le_succ n)))

theorem decStr_inj {a b : ℕ} (h : decStr a = decStr b) : a = b := by
  have ha := decStr_val a
  rw [h, decStr_val] at ha
  exact ha.symm

theorem decStrAux_ne_nil (f n : ℕ) (hf : 0 < f) : decStrAux f n ≠ [] := by
  cases f with
  | zero => omega
  | succ f =>
    unfold decStrAux
    split_ifs <;> simp

theorem decStrAux_head_digit :
    ∀ (f n : ℕ) (c : Char) (cs : Str), decStrAux f n = c :: cs → jsIsDigit c = true := by
  intro f
  induction f with
  | zero => intro n c cs h; exact absurd h (by simp [decStrAux])
  | succ f ih =>
    intro n c cs h
    unfold decStrAux at h
    split_ifs at h with h10
    · cases h; exact jsIsDigit_digitCh n
    · cases e : decStrAux f (n / 10) with
      | nil => rw [e] at h; cases h; exact jsIsDigit_digitCh (n % 10)
      | cons c0 cs0 =>
        rw [e, List.cons_append] at h
        obtain ⟨h1, h2⟩ := List.cons.inj h
        rw [← h1]
        exact ih (n / 10) c0 cs0 e

theorem jsNumToStr_inj {a b : ℤ} (h : jsNumToStr a = jsNumToStr b) : a = b := by
  unfold jsNumToStr at h
  split_ifs at h with ha hb hb
  · have := decStr_inj (List.cons.inj h).2
    omega
  · exfalso
    cases e : decStr b.toNat with
    | nil => exact decStrAux_ne_nil _ _ (Nat.succ_pos _) e
    | cons c cs =>
      rw [e] at h
      have hd := decStrAux_head_digit _ _ _ _ e
      have : c = '-' := (List.cons.inj h).1.symm
      rw [this] at hd
      exact absurd hd (by decide)
  · exfalso
    cases e : decStr a.toNat with
    | nil => exact decStrAux_ne_nil _ _ (Nat.succ_pos _) e
    | cons c cs =>
      rw [e] at h
      have hd := decStrAux_head_digit _ _ _ _ e
      have : c = '-' := (List.cons.inj h).1
      rw [this] at hd
      exact absurd hd (by decide)
  · have := decStr_inj h
    omega

theorem lexLeStr_total : ∀ (s t : Str), lexLeStr s t = true ∨ lexLeStr t s = true := by
  intro s
  induction s with
  | nil => intro t; exact Or.inl rfl
  | cons a as ih =>
    intro t
    cases t with
    | nil => exact Or.inr rfl
    | cons b bs =>
      unfold lexLeStr
      rcases lt_trichotomy a b with hab | hab | hab
      · left; rw [if_pos hab]
      · subst hab
        rw [if_neg (lt_irrefl a), if_neg (lt_irrefl a), if_neg (lt_irrefl a),
          if_neg (lt_irrefl a)]
        exact ih bs
      · right; rw [if_pos hab]

theorem lexLeStr_trans : ∀ (s t u : Str), lexLeStr s t = true → lexLeStr t u = true →
    lexLeStr s u = true := by
  intro s
  induction s with
  | nil => intro t u _ _; rfl
  | cons a as ih =>
    intro t u h1 h2
    cases t with
    | nil => exact absurd h1 (by simp [lexLeStr])
    | cons b bs =>
      cases u with
      | nil => exact absurd h2 (by simp [lexLeStr])
      | cons c cs =>
        unfold lexLeStr at h1 h2 ⊢
        rcases lt_trichotomy a b with hab | hab | hab
        · rcases lt_trichotomy b c with hbc | hbc | hbc
          · rw [if_pos (hab.trans hbc)]
          · subst hbc; rw [if_pos hab]
          · rw [if_neg (asymm hbc), if_pos hbc] at h2
            exact absurd h2 (by simp)
        · subst hab
          rw [if_neg (lt_irrefl a), if_neg (lt_irrefl a)] at h1
          rcases lt_trichotomy a c with hac | hac | hac
          · rw [if_pos hac]
          · subst hac
            rw [if_neg (lt_irrefl a), if_neg (lt_irrefl a)] at h2 ⊢
            exact ih bs cs h1 h2
          · rw [if_neg (asymm hac), if_pos hac] at h2
            exact absurd h2 (by simp)
        · rw [if_neg (asymm hab), if_pos hab] at h1
          exact absurd h1 (by simp)

theorem lexLeStr_antisymm : ∀ (s t : Str), lexLeStr s t = true → lexLeStr t s = true →
    s = t := by
  intro s
  induction s with
  | nil =>
    intro t h1 h2
    cases t with
    | nil => rfl
    | cons b bs => exact absurd h2 (by simp [lexLeStr])
  | cons a as ih =>
    intro t h1 h2
    cases t with
    | nil => exact absurd h1 (by simp [lexLeStr])
    | cons b bs =>
      unfold lexLeStr at h1 h2
      rcases lt_trichotomy a b with hab | hab | hab
      · rw [if_neg (asymm hab), if_pos hab] at h2
        exact absurd h2 (by simp)
      · subst hab
        rw [if_neg (lt_irrefl a), if_neg (lt_irrefl a)] at h1 h2
        rw [ih bs h1 h2]
      · rw [if_neg (asymm hab), if_pos hab] at h1
        exact absurd h1 (by simp)

theorem dateLe_total (a b : ℤ) : dateLe a b ∨ dateLe b a := lexLeStr_total _ _

theorem dateLe_trans {a b c : ℤ} (h1 : dateLe a b) (h2 : dateLe b c) : dateLe a c :=
  lexLeStr_trans _ _ _ h1 h2

theorem dateLe_antisymm {a b : ℤ} (h1 : dateLe a b) (h2 : dateLe b a) : a = b :=
  jsNumToStr_inj (lexLeStr_antisymm _ _ h1 h2)

instance : IsTotal ℤ dateLe := ⟨dateLe_total⟩

instance : IsTrans ℤ dateLe := ⟨fun _ _ _ => dateLe_trans⟩

instance : IsAntisymm ℤ dateLe := ⟨fun _ _ => dateLe_antisymm⟩

theorem insertionSort_dateLe_perm_eq {l1 l2 : List ℤ} (hp : l1.Perm l2) :
    l1.insertionSort dateLe = l2.insertionSort dateLe :=
  List.eq_of_perm_of_sorted
    ((l1.perm_insertionSort dateLe).trans (hp.trans (l2.perm_insertionSort dateLe).symm))
    (List.sorted_insertionSort dateLe l1) (List.sorted_insertionSort dateLe l2)

/-- Projection of a stored record onto the aggregate statistics fields
that do not depend on the order of the load history: total and windowed
load counts, average, highest and lowest rate per mile, last contact
date, and average days between contacts. -/
def C3View (o : Option BrokerStatsRec) :
    Option (ℕ × ℕ × ℕ × Option ℚ × Option ℚ × Option ℚ × ℤ × Option ℚ) :=
  o.map (fun s => (s.totalLoads, s.loadsThisWeek, s.loadsThisMonth,
    s.avgRatePerMile, s.highestRate, s.lowestRate, s.lastContactDate, s.avgDaysBetween))

theorem C3View_update (prefs : CompanyPreferences) (name : Str) (now : ℤ)
    (a : LoadRow) (t : List LoadRow) (st : Option BrokerStatsRec) :
    C3View (updateBrokerStats prefs name now (a :: t) st) =
      some ((a :: t).length,
        ((a :: t).filter (fun l => now - 7 * 24 * 60 * 60 * 1000 ≤ l.extractedAt)).length,
        ((a :: t).filter (fun l => now - 30 * 24 * 60 * 60 * 1000 ≤ l.extractedAt)).length,
        (if ((a :: t).filterMap (·.ratePerMile)).length > 0 then
          some ((((a :: t).filterMap (·.ratePerMile)).sum) /
            (((a :: t).filterMap (·.ratePerMile)).length : ℚ))
         else none),
        jsMaxList ((a :: t).filterMap (·.ratePerMile)),
        jsMinList ((a :: t).filterMap (·.ratePerMile)),
        now,
        (if (((a :: t).map (·.extractedAt)).insertionSort dateLe).length > 1 then
          some ((((((a :: t).map (·.extractedAt)).insertionSort dateLe).getLast?.getD 0 -
              (((a :: t).map (·.extractedAt)).insertionSort dateLe).head?.getD 0 : ℤ) : ℚ) /
            (((((a :: t).map (·.extractedAt)).insertionSort dateLe).length - 1 : ℕ) : ℚ) /
            (24 * 60 * 60 * 1000))
         else none)) := by
  cases st <;> rfl

/-- First load row of the C3 counterexample history. -/
def C3row1 : LoadRow :=
  { extractedAt := 1700000000000, ratePerMile := some 2,
    origin := some (S ("Dallas, TX")), destination := some (S ("Atlanta, GA")),
    brokerEmail := some (S ("a@x.com")) }

/-- Second load row of the C3 counterexample history. -/
def C3row2 : LoadRow :=
  { extractedAt := 1700000100000, ratePerMile := some 3,
    origin := some (S ("Austin, TX")), destination := some (S ("Miami, FL")),
    brokerEmail := some (S ("b@y.com")) }

/-- C3 counterexample: recomputation is not fully order-independent.
Swapping the two loads of a history is a permutation, yet the recomputed
records differ: `brokerEmail` and the `create`-branch `firstContactDate`
come from the first row of the history, and the `topLanes` list keeps
lanes in first-insertion order. -/
theorem C3_counterexample :
    [C3row1, C3row2].Perm [C3row2, C3row1] ∧
    updateBrokerStats COMPANY_PREFERENCES (S ("B")) 1700000200000 [C3row1, C3row2] none ≠
      updateBrokerStats COMPANY_PREFERENCES (S ("B")) 1700000200000 [C3row2, C3row1] none :=
  ⟨List.Perm.swap _ _ _, by decide⟩

/-- C3 (amended): recomputation is idempotent in the upsert sense:
feeding the freshly computed record back as the stored row and
recomputing over the unchanged history reproduces it exactly. It is
order-independent only for the aggregate fields of `C3View` (total and
windowed load counts, average, highest and lowest rate per mile, last
contact date, and average days between contacts, the last being
invariant even though the code sorts the dates lexicographically):
permuting the load history preserves these, while `brokerEmail`, the
`create`-branch `firstContactDate` and the `topLanes` order may change. -/
theorem C3_theorem :
    (∀ (prefs : CompanyPreferences) (name : Str) (now : ℤ) (h : List LoadRow)
        (st : Option BrokerStatsRec),
      updateBrokerStats prefs name now h (updateBrokerStats prefs name now h st) =
        updateBrokerStats prefs name now h st) ∧
    (∀ (prefs : CompanyPreferences) (name : Str) (now : ℤ) (h h' : List LoadRow)
        (st : Option BrokerStatsRec), h.Perm h' →
      C3View (updateBrokerStats prefs name now h st) =
        C3View (updateBrokerStats prefs name now h' st)) := by
  constructor
  · intro prefs name now h st
    cases h with
    | nil => rfl
    | cons a t => cases st <;> rfl
  · intro prefs name now h h' st hp
    cases h with
    | nil => rw [← hp.nil_eq]
    | cons a t =>
      cases h' with
      | nil => exact absurd hp.eq_nil (by simp)
      | cons b u =>
        have hrates : ((a :: t).filterMap (·.ratePerMile)).Perm
            ((b :: u).filterMap (·.ratePerMile)) := hp.filterMap _
        have hdates : (((a :: t).map (·.extractedAt)).insertionSort dateLe) =
            (((b :: u).map (·.extractedAt)).insertionSort dateLe) :=
          insertionSort_dateLe_perm_eq (hp.map _)
        rw [C3View_update, C3View_update]
        simp only [Option.some.injEq, Prod.mk.injEq]
        refine ⟨hp.length_eq, ((hp.filter _)).length_eq, ((hp.filter _)).length_eq, ?_,
          jsMaxList_perm hrates, jsMinList_perm hrates, trivial, ?_⟩
        · rw [hrates.length_eq, hrates.sum_eq]
        · rw [hdates]

/-- C3 witness: on the two-load history of the counterexample, the
recomputed record is a fixed point of a second recomputation, and the
aggregate view is unchanged by swapping the two loads. -/
theorem C3_witness :
    (updateBrokerStats COMPANY_PREFERENCES (S ("B")) 1700000200000 [C3row1, C3row2]
        (updateBrokerStats COMPANY_PREFERENCES (S ("B")) 1700000200000 [C3row1, C3row2]
          none) =
      updateBrokerStats COMPANY_PREFERENCES (S ("B")) 1700000200000 [C3row1, C3row2]
        none) ∧
    (C3View (updateBrokerStats COMPANY_PREFERENCES (S ("B")) 1700000200000
        [C3row1, C3row2] none) =
      C3View (updateBrokerStats COMPANY_PREFERENCES (S ("B")) 1700000200000
        [C3row2, C3row1] none)) :=
  ⟨C3_theorem.1 _ _ _ _ _, C3_theorem.2 _ _ _ _ _ _ (List.Perm.swap _ _ _)⟩

/-- C4 failing input: two loads whose timestamps straddle a
decimal-digit-length boundary. -/
def C4_loads : List LoadRow :=
  [{ extractedAt := 1000000000000, ratePerMile := none, origin := none,
     destination := none, brokerEmail := none },
   { extractedAt := 999999999999, ratePerMile := none, origin := none,
     destination := none, brokerEmail := none }]

/-- C4: `dates.sort()` at line 616 sorts the millisecond timestamps as
strings (no comparator), so for the two loads of `C4_loads` — 999999999999
and 1000000000000, one millisecond apart — the code stores a negative
`avgDaysBetween` of −1ms/day, while the claimed chronological formula
(latest − earliest) / (count − 1) gives +1ms/day.  The same file sorts
dates numerically at line 1016, so the missing comparator is a slip, not a
design choice. -/
theorem C4_code_bug_evaluation :
    (updateBrokerStats COMPANY_PREFERENCES (S ("B")) 1700000000000 C4_loads
        none).map (fun s => s.avgDaysBetween) = some (some (-(1 / 86400000))) ∧
    specAvgDaysBetweenContacts C4_loads = some (1 / 86400000) ∧
    ¬ ((-(1 / 86400000) : ℚ) = 1 / 86400000) := by
  refine ⟨by decide, by decide, by norm_num⟩

/-- C5: the message body
`Dallas, TX to Atlanta, GA $1500 750 miles` (which contains the three
fragments named by the claim) extracts with confidence exactly 75 — the
lane (30), rate (25) and miles (20) weights — and `ratePerMile = 2.00`. -/
theorem C5_theorem :
    jsIncludes (S ("Dallas, TX to Atlanta, GA $1500 750 miles"))
        (S ("Dallas, TX to Atlanta, GA")) = true ∧
    jsIncludes (S ("Dallas, TX to Atlanta, GA $1500 750 miles")) (S ("$1500")) = true ∧
    jsIncludes (S ("Dallas, TX to Atlanta, GA $1500 750 miles")) (S ("750 miles")) = true ∧
    (extractLoad [] [] (S ("Dallas, TX to Atlanta, GA $1500 750 miles"))
        (S ("broker@example.com"))).map
        (fun o => o.map (fun d => (d.confidence, d.ratePerMile))) =
      some (some (75, some 2)) ∧
    (75 : ℚ) ≥ 75 := by
  refine ⟨by decide, by decide, by decide, by decide, by norm_num⟩

/-- C6: the sender `dispatch@hubgroup.com` is identified as the broker
`Hub Group` at high confidence with similarity 1.0, because the extracted
domain `hubgroup.com` is an exact domain match in the registry. -/
theorem C6_theorem :
    identifyBroker KNOWN_BROKERS (S ("dispatch@hubgroup.com")) =
      some { isBroker := true, brokerName := some (S ("Hub Group")),
             brokerType := some (S ("regional")), confidence := .high,
             similarityScore := some 1 } ∧
    extractDomain (jsLower (S ("dispatch@hubgroup.com"))) =
      some (some (S ("hubgroup.com"))) ∧
    findMatchingBroker KNOWN_BROKERS (S ("hubgroup.com")) =
      some (⟨S ("Hub Group"), S ("hubgroup.com"), S ("regional")⟩, 1) := by
  refine ⟨by decide, by decide, by decide⟩

/-- The volume tier of `calculateRelationshipScore` as a natural-number
function. -/
def natVolumeTier (t : ℕ) : ℕ :=
  if t ≥ 50 then 40 else if t ≥ 20 then 30 else if t ≥ 10 then 20 else t

/-- Monotonicity of the volume tier. -/
theorem natVolumeTier_mono {t1 t2 : ℕ} (h : t1 ≤ t2) :
    natVolumeTier t1 ≤ natVolumeTier t2 := by
  unfold natVolumeTier; split_ifs <;> omega

/-- C7: for fixed `loadsThisMonth`, `avgRatePerMile` and a
`laneConsistency` in `[0, 1]`, the relationship score is monotonically
non-decreasing in `totalLoads`, and always lies in `[0, 100]`. -/
theorem C7_theorem (prefs : CompanyPreferences) (ltm : ℕ) (avg lc : ℚ)
    (h0 : 0 ≤ lc) (h1 : lc ≤ 1) :
    (∀ t1 t2 : ℕ, t1 ≤ t2 →
      calculateRelationshipScore prefs ⟨t1, ltm, avg, lc⟩ ≤
        calculateRelationshipScore prefs ⟨t2, ltm, avg, lc⟩) ∧
    (∀ t : ℕ, 0 ≤ calculateRelationshipScore prefs ⟨t, ltm, avg, lc⟩ ∧
      calculateRelationshipScore prefs ⟨t, ltm, avg, lc⟩ ≤ 100) := by
  have key : ∀ t : ℕ,
      (if t ≥ 50 then (40:ℚ) else if t ≥ 20 then 30 else if t ≥ 10 then 20 else (t:ℚ)) =
        (natVolumeTier t : ℚ) := by
    intro t; unfold natVolumeTier; split_ifs <;> norm_num
  constructor
  · intro t1 t2 ht
    unfold calculateRelationshipScore
    simp only
    rw [key t1, key t2]
    apply min_le_min _ le_rfl
    apply add_le_add_right
    apply add_le_add_right
    apply add_le_add_right
    exact_mod_cast natVolumeTier_mono ht
  · intro t
    unfold calculateRelationshipScore
    simp only
    rw [key t]
    constructor
    · apply le_min _ (by norm_num)
      have a1 : (0:ℚ) ≤ (natVolumeTier t : ℚ) := by positivity
      have a2 : (0:ℚ) ≤
          (if ltm ≥ 10 then (30:ℚ) else if ltm ≥ 5 then 20 else if ltm ≥ 2 then 10 else 0) := by
        split_ifs <;> norm_num
      have a3 : (0:ℚ) ≤
          (if avg ≥ prefs.minRatePerMile + 0.5 then (20:ℚ)
           else if avg ≥ prefs.minRatePerMile then 15
           else if avg ≥ prefs.minRatePerMile - 0.25 then 10 else 0) := by
        split_ifs <;> norm_num
      have a4 : (0:ℚ) ≤ lc * 10 := by positivity
      linarith
    · exact min_le_right _ _

/-- C7 witness: the theorem applied at the shipped preferences with
`laneConsistency = 1/2`: the score rises from 5 to 12 total loads and the
12-load score lies in `[0, 100]`. -/
theorem C7_witness :
    calculateRelationshipScore COMPANY_PREFERENCES ⟨5, 3, 22/10, 1/2⟩ ≤
      calculateRelationshipScore COMPANY_PREFERENCES ⟨12, 3, 22/10, 1/2⟩ ∧
    0 ≤ calculateRelationshipScore COMPANY_PREFERENCES ⟨12, 3, 22/10, 1/2⟩ ∧
    calculateRelationshipScore COMPANY_PREFERENCES ⟨12, 3, 22/10, 1/2⟩ ≤ 100 :=
  ⟨(C7_theorem COMPANY_PREFERENCES 3 (22/10) (1/2) (by norm_num) (by norm_num)).1
      5 12 (by norm_num),
   ((C7_theorem COMPANY_PREFERENCES 3 (22/10) (1/2) (by norm_num) (by norm_num)).2 12).1,
   ((C7_theorem COMPANY_PREFERENCES 3 (22/10) (1/2) (by norm_num) (by norm_num)).2 12).2⟩

/-- C10: once a BrokerStats record exists, a recompute over a nonempty
history goes through the update branch of the upsert, which writes every
recomputed statistic field (the same values the create branch would
write) but leaves the stored `firstContactDate` (and the `broker` key)
unchanged. -/
theorem C10_theorem (prefs : CompanyPreferences) (name : Str) (now : ℤ)
    (h : List LoadRow) (e : BrokerStatsRec) (hne : h ≠ []) :
    ∃ s, updateBrokerStats prefs name now h (some e) = some s ∧
      s.firstContactDate = e.firstContactDate ∧
      s.broker = e.broker ∧
      ∀ s0, updateBrokerStats prefs name now h none = some s0 →
        s.totalLoads = s0.totalLoads ∧ s.loadsThisWeek = s0.loadsThisWeek ∧
        s.loadsThisMonth = s0.loadsThisMonth ∧ s.avgRatePerMile = s0.avgRatePerMile ∧
        s.highestRate = s0.highestRate ∧ s.lowestRate = s0.lowestRate ∧
        s.topLanes = s0.topLanes ∧ s.laneCount = s0.laneCount ∧
        s.brokerEmail = s0.brokerEmail ∧ s.lastContactDate = s0.lastContactDate ∧
        s.avgDaysBetween = s0.avgDaysBetween ∧ s.relationshipScore = s0.relationshipScore := by
  obtain ⟨first, rest, rfl⟩ : ∃ a l, h = a :: l := by
    cases h with
    | nil => exact absurd rfl hne
    | cons a l => exact ⟨a, l, rfl⟩
  refine ⟨_, rfl, rfl, rfl, ?_⟩
  intro s0 h0
  have hs : s0 = _ := (Option.some.inj h0).symm
  subst hs
  exact ⟨rfl, rfl, rfl, rfl, rfl, rfl, rfl, rfl, rfl, rfl, rfl, rfl⟩

/-- C10 witness: the theorem applied at a concrete one-load history and a
stored record, checking that the stored `firstContactDate` 123 survives
the recompute. -/
theorem C10_witness :
    ∃ s, updateBrokerStats COMPANY_PREFERENCES (S ("B")) 1700000200000
        [{ extractedAt := 1700000000000, ratePerMile := some 2,
           origin := some (S ("Dallas, TX")), destination := some (S ("Atlanta, GA")),
           brokerEmail := some (S ("a@x.com")) }]
        (some { broker := S ("B"), brokerEmail := none, totalLoads := 1,
                loadsThisMonth := 1, loadsThisWeek := 1, avgRatePerMile := none,
                highestRate := none, lowestRate := none, topLanes := [],
                laneCount := 0, firstContactDate := 123, lastContactDate := 0,
                avgDaysBetween := none, relationshipScore := 0 }) = some s ∧
      s.firstContactDate = 123 := by
  obtain ⟨s, hs, hfirst, -⟩ :=
    C10_theorem COMPANY_PREFERENCES (S ("B")) 1700000200000
      [{ extractedAt := 1700000000000, ratePerMile := some 2,
         origin := some (S ("Dallas, TX")), destination := some (S ("Atlanta, GA")),
         brokerEmail := some (S ("a@x.com")) }]
      { broker := S ("B"), brokerEmail := none, totalLoads := 1,
        loadsThisMonth := 1, loadsThisWeek := 1, avgRatePerMile := none,
        highestRate := none, lowestRate := none, topLanes := [],
        laneCount := 0, firstContactDate := 123, lastContactDate := 0,
        avgDaysBetween := none, relationshipScore := 0 }
      (by simp)
  exact ⟨s, hs, hfirst⟩

/-- States of a pattern-1 lane are validated. -/
theorem laneFromMatch1_states {c : Str} {m : JsMatch} {lane : Lane}
    (h : laneFromMatch1 c m = some lane) :
    lane.originState ∈ US_STATES ∧ lane.destState ∈ US_STATES := by
  unfold laneFromMatch1 at h
  dsimp only at h
  split_ifs at h with hc
  cases h; exact ⟨hc.1, hc.2⟩

/-- States of a pattern-2 lane are validated. -/
theorem laneFromMatch2_states {c : Str} {m : JsMatch} {lane : Lane}
    (h : laneFromMatch2 c m = some lane) :
    lane.originState ∈ US_STATES ∧ lane.destState ∈ US_STATES := by
  unfold laneFromMatch2 at h
  dsimp only at h
  split_ifs at h with hc
  cases h; exact ⟨hc.1, hc.2⟩

/-- C8: every lane `extractLane` returns carries two valid two-letter US
state codes, and the content `Dallas, TZ to Atlanta, GA` (an invalid
origin state token, no other lane form) yields no lane at all. -/
theorem C8_theorem :
    (∀ (content : Str) (lane : Lane), extractLane content = some (some lane) →
      lane.originState ∈ US_STATES ∧ lane.destState ∈ US_STATES) ∧
    extractLane ('\n' :: S ("Dallas, TZ to Atlanta, GA")) = some none := by
  constructor
  · intro content lane h
    unfold extractLane at h
    cases e1 : jsReplaceAll {i := true} laneStrip1 [] content with
    | none => rw [e1] at h; exact absurd h (by simp)
    | some c1 =>
    rw [e1] at h
    simp only [Option.bind_eq_bind, Option.some_bind] at h
    cases e2 : jsReplaceAll {i := true} laneStrip2 [] c1 with
    | none => rw [e2] at h; exact absurd h (by simp)
    | some c2 =>
    rw [e2] at h
    simp only [Option.some_bind] at h
    cases e3 : jsReplaceAll {i := true} laneStrip3 [] c2 with
    | none => rw [e3] at h; exact absurd h (by simp)
    | some cleanContent =>
    rw [e3] at h
    simp only [Option.some_bind] at h
    cases e4 : jsMatchFirst {i := true} lanePattern1 cleanContent with
    | none => rw [e4] at h; exact absurd h (by simp)
    | some m1? =>
    rw [e4] at h
    simp only [Option.some_bind] at h
    cases m1? with
    | some m =>
      dsimp only at h
      cases e5 : laneFromMatch1 cleanContent m with
      | some lane' =>
        rw [e5] at h
        cases h
        exact laneFromMatch1_states e5
      | none =>
        rw [e5] at h
        dsimp only at h
        cases e6 : jsMatchFirst {} lanePattern2 cleanContent with
        | none => rw [e6] at h; exact absurd h (by simp)
        | some m2? =>
        rw [e6] at h
        simp only [Option.some_bind] at h
        cases m2? with
        | some m2 =>
          dsimp only at h
          cases h' : laneFromMatch2 cleanContent m2 with
          | some lane' => rw [h'] at h; cases h; exact laneFromMatch2_states h'
          | none => rw [h'] at h; exact absurd h (by simp)
        | none => exact absurd h (by simp)
    | none =>
      dsimp only at h
      cases e6 : jsMatchFirst {} lanePattern2 cleanContent with
      | none => rw [e6] at h; exact absurd h (by simp)
      | some m2? =>
      rw [e6] at h
      simp only [Option.some_bind] at h
      cases m2? with
      | some m2 =>
        dsimp only at h
        cases h' : laneFromMatch2 cleanContent m2 with
        | some lane' => rw [h'] at h; cases h; exact laneFromMatch2_states h'
        | none => rw [h'] at h; exact absurd h (by simp)
      | none => exact absurd h (by simp)
  · decide

/-- C8 witness: the universal part applied to the valid lane text
`Dallas, TX to Atlanta, GA`, whose extracted states are in the state
list. -/
theorem C8_witness :
    (S ("TX")) ∈ US_STATES ∧ (S ("GA")) ∈ US_STATES :=
  C8_theorem.1 ('\n' :: S ("Dallas, TX to Atlanta, GA"))
    ⟨S ("Dallas"), S ("TX"), S ("Atlanta"), S ("GA")⟩ (by decide)

/-- Every `isBroker: false` return of `identifyBroker` is its canonical
rejection record. -/
theorem identifyBroker_reject (fromEmail : Str) (r : BrokerIdent)
    (h : identifyBroker KNOWN_BROKERS fromEmail = some r)
    (hfalse : r.isBroker = false) : r = notBrokerIdent := by
  unfold identifyBroker at h
  split_ifs at h with he
  · cases h; rfl
  · simp only [Option.bind_eq_bind] at h
    cases e1 : extractDomain (jsLower fromEmail) with
    | none => rw [e1] at h; exact absurd h (by simp)
    | some domain? =>
    rw [e1] at h
    simp only [Option.some_bind] at h
    cases domain? with
    | none => dsimp only at h; cases h; rfl
    | some domain =>
      dsimp only at h
      split_ifs at h with hd hp
      · cases h; rfl
      · cases fm : findMatchingBroker KNOWN_BROKERS domain with
        | some bs =>
          obtain ⟨b, sim⟩ := bs
          rw [fm] at h
          dsimp only at h
          cases h
          exact absurd hfalse (by simp)
        | none =>
          rw [fm] at h
          dsimp only at h
          cases fn : formatDomainAsName domain with
          | none => rw [fn] at h; exact absurd h (by simp)
          | some nm =>
            rw [fn] at h
            simp only [Option.bind_eq_bind, Option.some_bind] at h
            cases h
            exact absurd hfalse (by simp)
      · cases fm : findMatchingBroker KNOWN_BROKERS domain with
        | some bs =>
          obtain ⟨b, sim⟩ := bs
          rw [fm] at h
          dsimp only at h
          cases h
          exact absurd hfalse (by simp)
        | none =>
          rw [fm] at h
          dsimp only at h
          cases h; rfl

/-- Every `isBroker: false` return of `isLikelyBrokerEmail` is its
canonical rejection record. -/
theorem isLikelyBrokerEmail_reject (fromEmail subject body : Str)
    (r : LikelyBroker)
    (h : isLikelyBrokerEmail KNOWN_BROKERS fromEmail subject body = some r)
    (hfalse : r.isBroker = false) : r = notLikelyBroker := by
  unfold isLikelyBrokerEmail at h
  simp only [Option.bind_eq_bind] at h
  cases e1 : identifyBroker KNOWN_BROKERS fromEmail with
  | none => rw [e1] at h; exact absurd h (by simp)
  | some dc =>
  rw [e1] at h
  simp only [Option.some_bind] at h
  cases e2 : analyzeContent subject body with
  | none => rw [e2] at h; exact absurd h (by simp)
  | some cc =>
  rw [e2] at h
  simp only [Option.some_bind] at h
  split_ifs at h <;> first
    | (cases h; rfl)
    | (cases h; exact absurd hfalse (by simp))

/-- Case analysis of the `confidence < 25` rejection tail. -/
theorem finishLoad_cases (c : ℚ) (d : LoadData) (o : Option LoadData)
    (h : finishLoad c d = some o) :
    (c < 25 ∧ o = none) ∨ (¬ c < 25 ∧ o = some d) := by
  unfold finishLoad at h
  split_ifs at h with hlt
  · cases h; exact Or.inl ⟨hlt, rfl⟩
  · cases h; exact Or.inr ⟨hlt, rfl⟩

/-- Every value `extractLoad` returns is either the `null` rejection or a
signal whose confidence passed the threshold. -/
theorem extractLoad_reject (mid subject body fromEmail : Str)
    (o : Option LoadData) (h : extractLoad mid subject body fromEmail = some o) :
    o = none ∨ ∃ d, o = some d ∧ 25 ≤ d.confidence := by
  unfold extractLoad at h
  simp only [Option.bind_eq_bind] at h
  cases e1 : stripHtml body with
  | none => rw [e1] at h; exact absurd h (by simp)
  | some cleanText =>
  rw [e1] at h
  simp only [Option.some_bind] at h
  cases e2 : extractLoadNumber (subject ++ '\n' :: cleanText) with
  | none => rw [e2] at h; exact absurd h (by simp)
  | some loadNumber =>
  rw [e2] at h
  simp only [Option.some_bind] at h
  cases e3 : extractLane (subject ++ '\n' :: cleanText) with
  | none => rw [e3] at h; exact absurd h (by simp)
  | some lane =>
  rw [e3] at h
  simp only [Option.some_bind] at h
  cases e4 : extractRate (subject ++ '\n' :: cleanText) with
  | none => rw [e4] at h; exact absurd h (by simp)
  | some rate =>
  rw [e4] at h
  simp only [Option.some_bind] at h
  cases e5 : extractMiles (subject ++ '\n' :: cleanText) with
  | none => rw [e5] at h; exact absurd h (by simp)
  | some miles0 =>
  rw [e5] at h
  simp only [Option.some_bind] at h
  cases e6 : extractWeight (subject ++ '\n' :: cleanText) with
  | none => rw [e6] at h; exact absurd h (by simp)
  | some weight =>
  rw [e6] at h
  simp only [Option.some_bind] at h
  cases e7 : extractDates (subject ++ '\n' :: cleanText) with
  | none => rw [e7] at h; exact absurd h (by simp)
  | some dates =>
  rw [e7] at h
  simp only [Option.some_bind] at h
  cases e8 : extractContact (subject ++ '\n' :: cleanText) fromEmail with
  | none => rw [e8] at h; exact absurd h (by simp)
  | some contact =>
  rw [e8] at h
  simp only [Option.some_bind] at h
  rcases finishLoad_cases _ _ o h with ⟨hlt, rfl⟩ | ⟨hge, rfl⟩
  · exact Or.inl rfl
  · exact Or.inr ⟨_, rfl, not_lt.mp hge⟩

/-- C9: for every input strings (empty, malformed or arbitrary), the
embedded identification and extraction functions are total — any value
they produce is reached through the defined rejection branches rather
than by an exception: an `isBroker: false` identification is exactly the
canonical "not a broker" record, and an extraction result is either the
`null` rejection or a signal that passed the confidence threshold.
(Non-throwing is represented by the totality of the embedding: every
source operation involved is a total function of its inputs.) -/
theorem C9_theorem :
    (∀ (fromEmail : Str) (r : BrokerIdent),
      identifyBroker KNOWN_BROKERS fromEmail = some r → r.isBroker = false →
      r = notBrokerIdent) ∧
    (∀ (fromEmail subject body : Str) (r : LikelyBroker),
      isLikelyBrokerEmail KNOWN_BROKERS fromEmail subject body = some r →
      r.isBroker = false → r = notLikelyBroker) ∧
    (∀ (mid subject body fromEmail : Str) (o : Option LoadData),
      extractLoad mid subject body fromEmail = some o →
      o = none ∨ ∃ d, o = some d ∧ 25 ≤ d.confidence) :=
  ⟨identifyBroker_reject, isLikelyBrokerEmail_reject, extractLoad_reject⟩

/-- C9 witness: the theorem applied to empty inputs: the empty sender is
rejected with the canonical records and the empty message extracts to the
`null` rejection. -/
theorem C9_witness :
    notBrokerIdent = notBrokerIdent ∧ notLikelyBroker = notLikelyBroker ∧
    ((none : Option LoadData) = none ∨
      ∃ d, (none : Option LoadData) = some d ∧ 25 ≤ d.confidence) :=
  ⟨C9_theorem.1 [] notBrokerIdent (by decide) rfl,
   C9_theorem.2.1 [] [] [] notLikelyBroker (by decide) rfl,
   C9_theorem.2.2 [] [] [] [] none (by decide)⟩

end TrueMile
